import Mathlib

/-!
# Verification of the event-sourced scope/burnup engine

A shallow embedding, in Lean 4, of the metric-computation core of a
Grafana JSON datasource that reconstructs scope/burnup, velocity and
cycle-time series from a JIRA issue corpus (`src/server.js`).

Modelling conventions:
* JIRA identifiers and keys (strings in the JSON payloads and in the
  changelog) are `String`.
* Timestamps (`Date` objects holding epoch milliseconds) are `ℤ`.
* Nullable JavaScript values are `Option _`; JavaScript's number
  coercion of `null` to `0` in arithmetic is `Option.getD 0`.
* JavaScript dictionaries keyed by strings are insertion-ordered
  association lists.
* `Array.prototype.sort` (stable since ES2019) is an insertion sort
  that keeps the original order of equal keys.
* Recursions of the source that have no termination guarantee
  (`isChildOf`, `calculateTotalSize`) take an explicit fuel argument
  and return `none` when the fuel runs out; the source diverges
  exactly when every fuel amount returns `none`.
-/

namespace JiraMetrics

/-- Embedding of `Array.prototype.sort` with comparator `(a, b) => key a - key b` is a
stable sort: insert the new element after every element whose key is
less than or equal to its own. -/
def stableInsert {α : Type} (key : α → ℤ) (a : α) : List α → List α
  | [] => [a]
  | x :: xs => if key x ≤ key a then x :: stableInsert key a xs else a :: x :: xs

/-- Stable sort by an integer key (models the JS stable `sort`). -/
def stableSortBy {α : Type} (key : α → ℤ) (l : List α) : List α :=
  l.foldl (fun acc a => stableInsert key a acc) []

/-! ## The issue corpus (input data model)

Issues arrive from the JIRA search API: nullable fields are `Option`,
identifier strings are `String`, datetimes are epoch milliseconds `ℤ`. -/

/-- One entry of `history.items` in a JIRA changelog.  `from`/`to` hold
identifier strings, `fromString`/`toString` hold display strings; any of
them can be `null`.  `fieldId` is absent on some item kinds. -/
structure ChangeItem where
  field : String
  fieldId : Option String
  fromVal : Option String
  fromString : Option String
  toVal : Option String
  toString : Option String
  deriving Repr, DecidableEq

/-- One entry of `issue.changelog.histories`: a numeric id, the change
datetime (`history.created`) and the changed items. -/
structure History where
  id : ℤ
  created : ℤ
  items : List ChangeItem
  deriving Repr, DecidableEq

/-- The `data` object of `customfield_10009` (parent initiative link). -/
structure ParentLinkData where
  id : String
  key : String
  deriving Repr, DecidableEq

/-- A JIRA issue as consumed by the engine, with the fields the source
reads flattened out of `issue.fields`.  `customfield_10016` is the
story-points number (already numeric in the payload), `customfield_10009`
the parent-initiative link (present iff it `hasOwnProperty('data')`),
`customfield_10008` the epic-link key, `fixVersions` the current list of
version ids. -/
structure JIssue where
  id : String
  key : String
  created : ℤ
  issuetypeName : String
  projectKey : String
  customfield_10016 : Option ℤ
  customfield_10009 : Option ParentLinkData
  customfield_10008 : Option String
  fixVersions : List String
  changelog : List History
  deriving Repr, DecidableEq

/-- Story size used if none is specified (source constant; it does not
override a size specifically set to 0). -/
def DEFAULT_STORY_SIZE : ℤ := 0

/-- Source `getIssueSize`: the Story Points field, or the default when unset. -/
def getIssueSize (issue : JIssue) : ℤ :=
  match issue.customfield_10016 with
  | none => DEFAULT_STORY_SIZE
  | some size => size

/-- Source `getParentIdentifier(issue, idType)`.  The source compares the type
name against the misspelt literal `"Initative"`, so a correctly spelt
`"Initiative"` falls through to the epic-link branch; the embedding keeps
the source's comparison verbatim. -/
def getParentIdentifier (issue : JIssue) (idType : String) : Option String :=
  if issue.issuetypeName == "Epic" then
    match issue.customfield_10009 with
    | some d => if idType == "key" then some d.key else some d.id
    | none => none
  else if issue.issuetypeName == "Initative" then
    none
  else
    if idType == "key" then issue.customfield_10008 else none

/-! ## Events -/

/-- The `eventDetails` object of an event, one constructor per object
shape the source builds.  The `created` details carry both `parentId`
(written by the event constructor) and `parentID` (a distinct property
that the retroactive parent correction writes — JavaScript property
names are case-sensitive, so `createdEvent.eventDetails.parentID = oldId`
creates a new property and leaves `parentId` untouched). -/
inductive EvDetails where
  | createdD (issueKey : String) (size : Option ℤ) (typeName : String)
      (parentKey : Option String) (parentId : Option String)
      (parentID : Option String)
      (resolution : Option String) (versions : List String)
  | parentChangeD (parentId : Option String) (parentKey : Option String)
  | sizeChangeD (size : Option ℤ)
  | childD (childId : Option String)
  | versionD (versionId : Option String)
  | resolutionD (resolution : Option String)
  deriving Repr, DecidableEq

/-- An atomic event of the Event Log. -/
structure Event where
  datetime : ℤ
  issueId : String
  event : String
  eventDetails : EvDetails
  deriving Repr, DecidableEq

/-- The assignments `createdEvent.eventDetails.parentID = oldId;
createdEvent.eventDetails.parentKey = oldKey;` on the created details. -/
def patchCreatedParent (d : EvDetails) (oldId oldKey : Option String) : EvDetails :=
  match d with
  | .createdD issueKey size typeName _ parentId _ resolution versions =>
      .createdD issueKey size typeName oldKey parentId oldId resolution versions
  | d => d

/-- The assignment `createdEvent.eventDetails.size = ...` on the created details. -/
def patchCreatedSize (d : EvDetails) (size : Option ℤ) : EvDetails :=
  match d with
  | .createdD issueKey _ typeName parentKey parentId parentID resolution versions =>
      .createdD issueKey size typeName parentKey parentId parentID resolution versions
  | d => d

/-- Replace the version list of the created details. -/
def setCreatedVersions (d : EvDetails) (versions : List String) : EvDetails :=
  match d with
  | .createdD issueKey size typeName parentKey parentId parentID resolution _ =>
      .createdD issueKey size typeName parentKey parentId parentID resolution versions
  | d => d

/-- Read the version list of the created details (`[]` otherwise). -/
def createdVersions (d : EvDetails) : List String :=
  match d with
  | .createdD _ _ _ _ _ _ _ versions => versions
  | _ => []

/-- The numeric value of a decimal digit character. -/
def digitVal? (c : Char) : Option ℕ :=
  if '0' ≤ c ∧ c ≤ '9' then some (c.toNat - '0'.toNat) else none

/-- Parse a non-empty all-digit character list as a natural number. -/
def parseNatDigits (cs : List Char) : Option ℕ :=
  match cs with
  | [] => none
  | _ =>
    cs.foldl (fun acc c =>
      match acc, digitVal? c with
      | some n, some d => some (n * 10 + d)
      | _, _ => none) (some 0)

/-- Embedding of `parseInt` on a changelog string; story-point strings are (possibly
negated) decimal integer numerals, on which `parseInt` is exactly this
parser (`NaN` results cannot arise from well-formed story-point
history strings and are out of scope). -/
def jsParseInt (s : String) : Option ℤ :=
  match s.data with
  | '-' :: rest => (parseNatDigits rest).map (fun n => -(n : ℤ))
  | cs => (parseNatDigits cs).map (fun n => (n : ℤ))

/-- Per-issue mutable state of the event-log construction loop. -/
structure BuildState where
  createdEvent : Event
  parentChange : Bool
  sizeChange : Bool
  doneCreationReverseForVersions : List String
  events : List Event
  deriving Repr

/-- The body of the `change.items.forEach` loop of
`calculateFullEventLog`, acting on one change item recorded at datetime
`changeCreated`. -/
def processChangeItem (issueId : String) (changeCreated : ℤ)
    (st : BuildState) (ci : ChangeItem) : BuildState :=
  if ci.fieldId == some "customfield_10009" || ci.fieldId == some "customfield_10008" then
    -- parent initiative link / epic link
    let st :=
      if !st.parentChange then
        let oldId := if ci.fieldId == some "customfield_10008" then ci.fromVal else ci.fromString
        let oldKey := if ci.fieldId == some "customfield_10008" then ci.fromString else none
        { st with
          createdEvent :=
            { st.createdEvent with
              eventDetails := patchCreatedParent st.createdEvent.eventDetails oldId oldKey }
          parentChange := true }
      else st
    let newId := if ci.fieldId == some "customfield_10008" then ci.toVal else ci.toString
    let newKey := if ci.fieldId == some "customfield_10008" then ci.toString else none
    { st with events := st.events ++
        [{ datetime := changeCreated, issueId := issueId, event := "parentChange",
           eventDetails := .parentChangeD newId newKey }] }
  else if ci.fieldId == some "customfield_10016" then
    -- story points
    let st :=
      if !st.sizeChange then
        { st with
          createdEvent :=
            { st.createdEvent with
              eventDetails := patchCreatedSize st.createdEvent.eventDetails
                (match ci.fromString with | none => none | some s => jsParseInt s) }
          sizeChange := true }
      else st
    { st with events := st.events ++
        [{ datetime := changeCreated, issueId := issueId, event := "sizeChange",
           eventDetails := .sizeChangeD
             (match ci.toString with
              | none => none
              | some s => if s == "" then none else jsParseInt s) }] }
  else if ci.field == "Epic Child" then
    { st with events := st.events ++
        [{ datetime := changeCreated, issueId := issueId,
           event := if ci.fromVal == none then "addChild" else "removeChild",
           eventDetails := .childD (if ci.fromVal == none then ci.toVal else ci.fromVal) }] }
  else if ci.fieldId == some "fixVersions" then
    let versionId := if ci.fromVal == none then ci.toVal else ci.fromVal
    let st := { st with events := st.events ++
        [{ datetime := changeCreated, issueId := issueId,
           event := if ci.fromVal == none then "addVersion" else "removeVersion",
           eventDetails := .versionD versionId }] }
    -- reverse engineer the create event (first add/remove per version id)
    match versionId with
    | none => st
    | some vId =>
        if st.doneCreationReverseForVersions.contains vId then st
        else
          let versions := createdVersions st.createdEvent.eventDetails
          let versions' :=
            if ci.fromVal == none then
              -- first observed change is an add: it was not there at creation
              -- (findIndex + splice removes the first occurrence only)
              versions.erase vId
            else
              -- first observed change is a remove: it was there at creation
              if versions.contains vId then versions else versions ++ [vId]
          { st with
            createdEvent :=
              { st.createdEvent with
                eventDetails := setCreatedVersions st.createdEvent.eventDetails versions' }
            doneCreationReverseForVersions := st.doneCreationReverseForVersions ++ [vId] }
  else if ci.fieldId == some "resolution" then
    { st with events := st.events ++
        [{ datetime := changeCreated, issueId := issueId, event := "resolutionChange",
           eventDetails := .resolutionD ci.toString }] }
  else st

/-- Source `calculateFullEventLog`: per issue, synthesize a `created` event from
the current field values, replay the history (sorted by history id) to
emit change events and retroactively correct the created event, append
the created event after the history events, and finally stable-sort the
concatenated log by datetime ascending. -/
def calculateFullEventLog (issues : List JIssue) : List Event :=
  let eventLog := issues.foldl (fun log issue =>
    let createdEvent : Event :=
      { datetime := issue.created
        issueId := issue.id
        event := "created"
        eventDetails := .createdD issue.key (some (getIssueSize issue))
          issue.issuetypeName
          (getParentIdentifier issue "key") (getParentIdentifier issue "id")
          none none issue.fixVersions }
    let st0 : BuildState :=
      { createdEvent := createdEvent, parentChange := false, sizeChange := false
        doneCreationReverseForVersions := [], events := [] }
    let sortedHistories := stableSortBy (fun h => h.id) issue.changelog
    let stF := sortedHistories.foldl
      (fun st hist => hist.items.foldl (processChangeItem issue.id hist.created) st) st0
    log ++ stF.events ++ [stF.createdEvent]) []
  stableSortBy (fun e => e.datetime) eventLog

/-! ## Replay state (Scope/Burnup Replayer)

JavaScript objects used as dictionaries are insertion-ordered
association lists; the snapshot arena stores issues by id and the
`children` arrays store the ids of the referenced snapshot objects
(the source stores live references into the same arena, so a lookup by
id observes exactly the mutations the source's aliased references
observe). -/

/-- Dictionary read `m[k]` (`none` models `undefined`). -/
def alistGet {β : Type} (m : List (String × β)) (k : String) : Option β :=
  (m.find? (fun p => p.1 == k)).map (·.2)

/-- Dictionary write `m[k] = v`: overwrite in place, or append a new
key in insertion order. -/
def alistSet {β : Type} (m : List (String × β)) (k : String) (v : β) :
    List (String × β) :=
  if m.any (fun p => p.1 == k) then
    m.map (fun p => if p.1 == k then (k, v) else p)
  else m ++ [(k, v)]

/-- JavaScript loose equality `==` between two nullable strings
(`null == null` and `undefined == null` are true; `null == "x"` is
false). -/
def jsLooseEq (a b : Option String) : Bool :=
  match a, b with
  | none, none => true
  | some x, some y => x == y
  | _, _ => false

/-- The mutable Issue Snapshot of the Replay State. -/
structure Snapshot where
  id : String
  key : String
  typeName : String
  size : Option ℤ
  resolved : Bool
  parentId : Option String
  parentKey : Option String
  children : List String
  versions : List String
  deriving Repr, DecidableEq

/-- The parent-id resolution at the top of `isChildOf`: the snapshot's
`parentId`, falling back to a key-map lookup of its `parentKey`. -/
def effectiveParentId (keyToIdMap : List (String × String))
    (issue : Snapshot) : Option String :=
  match issue.parentId with
  | some p => some p
  | none =>
    match issue.parentKey with
    | some k => alistGet keyToIdMap k
    | none => none

/-- Source `isChildOf(issues, keyToIdMap, issue, parentIssueId)`: walk the
parent chain (id, falling back to key lookup) until the target id, a
missing parent, or a null parent is found.  The source recursion has no
termination guarantee, so the embedding takes fuel and returns `none`
when it runs out: the source diverges on an input iff every fuel amount
returns `none`. -/
def isChildOfFuel (fuel : ℕ) (issues : List (String × Snapshot))
    (keyToIdMap : List (String × String)) (issue : Snapshot)
    (parentIssueId : String) : Option Bool :=
  match fuel with
  | 0 => none
  | fuel + 1 =>
    let parentId := effectiveParentId keyToIdMap issue
    if parentId == some parentIssueId then some true
    else
      match parentId with
      | some pid =>
        match alistGet issues pid with
        | some directParentIssue =>
            isChildOfFuel fuel issues keyToIdMap directParentIssue parentIssueId
        | none => some false
      | none => some false

/-- Source `calculateTotalSize(issue, onlyResolved)`: the issue's own size
(gated by `resolved` when `onlyResolved`) plus the subtree sizes of its
children, resolved through the arena.  Fuelled like `isChildOfFuel`; a
child id missing from the arena cannot occur in the source (children
are direct references) and yields `none`. -/
def calculateTotalSizeFuel (fuel : ℕ) (issues : List (String × Snapshot))
    (issue : Snapshot) (onlyResolved : Bool) : Option ℤ :=
  match fuel with
  | 0 => none
  | fuel + 1 =>
    let childrenSum := issue.children.foldl (fun acc childId =>
      match acc with
      | none => none
      | some s =>
        match alistGet issues childId with
        | some child =>
            (calculateTotalSizeFuel fuel issues child onlyResolved).map (s + ·)
        | none => none) (some 0)
    childrenSum.map (fun s =>
      s + (if onlyResolved then (if issue.resolved then issue.size.getD 0 else 0)
           else issue.size.getD 0))

/-- Source `maintainVersionMap`: add or remove an issue in the version→issues
index (the source stores issue references; membership is tested through
`vIssue.id == issue.id`, so ids carry the same information).  The
mismatch cases only log a warning. -/
def maintainVersionMap (m : List (String × List String)) (versionId : String)
    (issueId : String) (addToVersion : Bool) : List (String × List String) :=
  let arr := (alistGet m versionId).getD []
  let idx := arr.findIdx? (fun vIssueId => vIssueId == issueId)
  if addToVersion then
    match idx with
    | none => alistSet m versionId (arr ++ [issueId])
    | some _ => alistSet m versionId arr
  else
    match idx with
    | none => alistSet m versionId arr
    | some i => alistSet m versionId (arr.take i ++ arr.drop (i + 1))

/-- The requested data window. -/
structure Window where
  now : ℤ
  fromMs : ℤ
  toMs : ℤ
  intervalMs : ℤ
  deriving Repr, DecidableEq

/-- The Replay State of `calculateScopeAndBurnupTimeseries`. -/
structure ReplayState where
  issuesAtTime : List (String × Snapshot)
  keyToIdMap : List (String × String)
  totalSize : ℤ
  previousTotalSize : Option ℤ
  totalDoneSize : ℤ
  previousTotalDoneSize : Option ℤ
  versionIssueMap : List (String × List String)
  scopeData : List (ℤ × ℤ)
  burnupData : List (ℤ × ℤ)
  deriving Repr, DecidableEq

/-- The empty initial Replay State. -/
def initialReplayState : ReplayState :=
  { issuesAtTime := [], keyToIdMap := [], totalSize := 0
    previousTotalSize := none, totalDoneSize := 0, previousTotalDoneSize := none
    versionIssueMap := [], scopeData := [], burnupData := [] }

/-- After each event the source appends a point to a series iff its
total changed since the last recorded point (a `null` previous value
never equals a number). -/
def recordPoints (eventDateTime : ℤ) (st : ReplayState) : ReplayState :=
  let st :=
    if some st.totalSize ≠ st.previousTotalSize then
      { st with scopeData := st.scopeData ++ [(st.totalSize, eventDateTime)]
                previousTotalSize := some st.totalSize }
    else st
  if some st.totalDoneSize ≠ st.previousTotalDoneSize then
    { st with burnupData := st.burnupData ++ [(st.totalDoneSize, eventDateTime)]
              previousTotalDoneSize := some st.totalDoneSize }
  else st

/-- One iteration of the event loop of
`calculateScopeAndBurnupTimeseries` (the event dispatch followed by the
point recording).  `none` models a crash of the source (an event for an
issue that was never created dereferences `undefined`) or fuel
exhaustion inside `isChildOf`/`calculateTotalSize`. -/
def replayStep (fuel : ℕ) (targetId : String) (isRelease : Bool)
    (st : ReplayState) (event : Event) : Option ReplayState :=
  let afterDispatch : Option ReplayState :=
    if event.event == "created" then
      match event.eventDetails with
      | .createdD issueKey size typeName parentKey parentId _parentID _resolution versions =>
        let issue : Snapshot :=
          { id := event.issueId, key := issueKey, typeName := typeName, size := size
            resolved := false, parentId := parentId, parentKey := parentKey
            children := [], versions := versions }
        let issues := alistSet st.issuesAtTime issue.id issue
        let keyToId := alistSet st.keyToIdMap issue.key issue.id
        let vmap := issue.versions.foldl
          (fun m vId => maintainVersionMap m vId issue.id true) st.versionIssueMap
        let st := { st with issuesAtTime := issues, keyToIdMap := keyToId
                            versionIssueMap := vmap }
        if !isRelease then
          match isChildOfFuel fuel issues keyToId issue targetId with
          | none => none
          | some true =>
            (calculateTotalSizeFuel fuel issues issue false).map (fun s =>
              { st with totalSize := st.totalSize + s })
          | some false => some st
        else if issue.typeName == "Bug" || issue.typeName == "Story" then
          if issue.versions.any (fun v => v == targetId) then
            (calculateTotalSizeFuel fuel issues issue false).map (fun s =>
              { st with totalSize := st.totalSize + s })
          else some st
        else some st
      | _ => some st
    else if event.event == "parentChange" then
      match event.eventDetails with
      | .parentChangeD newParentId _newParentKey =>
        match alistGet st.issuesAtTime event.issueId with
        | none => none
        | some issue =>
          let before : Option (ℤ × ℤ) :=
            if !isRelease then
              match isChildOfFuel fuel st.issuesAtTime st.keyToIdMap issue targetId with
              | none => none
              | some true =>
                match calculateTotalSizeFuel fuel st.issuesAtTime issue false,
                      calculateTotalSizeFuel fuel st.issuesAtTime issue true with
                | some s, some d => some (-s, -d)
                | _, _ => none
              | some false => some (0, 0)
            else some (0, 0)
          match before with
          | none => none
          | some (size0, done0) =>
            -- the source only assigns `parentId`; `parentKey` keeps its old value
            let issue' := { issue with parentId := newParentId }
            let issues' := alistSet st.issuesAtTime issue.id issue'
            let after : Option (ℤ × ℤ) :=
              if !isRelease then
                match isChildOfFuel fuel issues' st.keyToIdMap issue' targetId with
                | none => none
                | some true =>
                  match calculateTotalSizeFuel fuel issues' issue' false,
                        calculateTotalSizeFuel fuel issues' issue' true with
                  | some s, some d => some (size0 + s, done0 + d)
                  | _, _ => none
                | some false => some (size0, done0)
              else some (size0, done0)
            after.map (fun (size, donePoints) =>
              { st with issuesAtTime := issues'
                        totalSize := st.totalSize + size
                        totalDoneSize := st.totalDoneSize + donePoints })
      | _ => some st
    else if event.event == "sizeChange" then
      match event.eventDetails with
      | .sizeChangeD newSize =>
        match alistGet st.issuesAtTime event.issueId with
        | none => none
        | some issue =>
          let previousSize := issue.size
          let issue' := { issue with size := newSize }
          let issues' := alistSet st.issuesAtTime issue.id issue'
          let member : Option Bool :=
            if isRelease then
              some (issue'.versions.any (fun v => v == targetId))
            else
              isChildOfFuel fuel issues' st.keyToIdMap issue' targetId
          member.map (fun isMember =>
            let st := { st with issuesAtTime := issues' }
            if isMember then
              { st with
                totalSize := st.totalSize - previousSize.getD 0 + newSize.getD 0
                totalDoneSize :=
                  if issue'.resolved then
                    st.totalDoneSize - previousSize.getD 0 + newSize.getD 0
                  else st.totalDoneSize }
            else st)
      | _ => some st
    else if event.event == "addChild" then
      match event.eventDetails with
      | .childD childId =>
        match alistGet st.issuesAtTime event.issueId with
        | none => none
        | some issue =>
          let newChild := match childId with
            | some cid => alistGet st.issuesAtTime cid
            | none => none
          match newChild, childId with
          | some _, some cid =>
            let issue' := { issue with children := issue.children ++ [cid] }
            let issues' := alistSet st.issuesAtTime issue.id issue'
            -- the pushed reference aliases the arena entry: re-read it
            match alistGet issues' cid with
            | none => none
            | some newChild' =>
              let st := { st with issuesAtTime := issues' }
              if !isRelease then
                match isChildOfFuel fuel issues' st.keyToIdMap issue' targetId with
                | none => none
                | some true =>
                  match calculateTotalSizeFuel fuel issues' newChild' false,
                        calculateTotalSizeFuel fuel issues' newChild' true with
                  | some s, some d =>
                    some { st with totalSize := st.totalSize + s
                                   totalDoneSize := st.totalDoneSize + d }
                  | _, _ => none
                | some false => some st
              else some st
          | _, _ => some st
      | _ => some st
    else if event.event == "removeChild" then
      match event.eventDetails with
      | .childD childId =>
        match alistGet st.issuesAtTime event.issueId with
        | none => none
        | some issue =>
          -- `issue.children.findIndex(child => child.issueId == childId)`:
          -- snapshot objects have an `id` property but no `issueId`
          -- property, so `child.issueId` is `undefined` for every child
          -- and the predicate is `undefined == childId`.
          let childIndex := issue.children.findIdx? (fun _child => jsLooseEq none childId)
          match childIndex with
          | none => some st
          | some i =>
            let issue' :=
              { issue with children := issue.children.take i ++ issue.children.drop (i + 1) }
            let issues' := alistSet st.issuesAtTime issue.id issue'
            let exChild := match childId with
              | some cid => alistGet issues' cid
              | none => none
            let st := { st with issuesAtTime := issues' }
            if !isRelease then
              match isChildOfFuel fuel issues' st.keyToIdMap issue' targetId with
              | none => none
              | some true =>
                match exChild with
                | none => none  -- `calculateTotalSize(undefined, ...)` crashes
                | some ex =>
                  match calculateTotalSizeFuel fuel issues' ex false,
                        calculateTotalSizeFuel fuel issues' ex true with
                  | some s, some d =>
                    some { st with totalSize := st.totalSize - s
                                   totalDoneSize := st.totalDoneSize - d }
                  | _, _ => none
              | some false => some st
            else some st
      | _ => some st
    else if event.event == "resolutionChange" then
      match event.eventDetails with
      | .resolutionD resolution =>
        match alistGet st.issuesAtTime event.issueId with
        | none => none
        | some issue =>
          let issue' := { issue with resolved := resolution == some "Done" }
          let issues' := alistSet st.issuesAtTime issue.id issue'
          let member : Option Bool :=
            if isRelease then
              some (issue'.versions.any (fun v => v == targetId)
                    && (issue'.typeName == "Story" || issue'.typeName == "Bug"))
            else
              isChildOfFuel fuel issues' st.keyToIdMap issue' targetId
          member.map (fun isMember =>
            let st := { st with issuesAtTime := issues' }
            if isMember then
              if issue'.resolved then
                { st with totalDoneSize := st.totalDoneSize + issue'.size.getD 0 }
              else
                { st with totalDoneSize := st.totalDoneSize - issue'.size.getD 0 }
            else st)
      | _ => some st
    else if isRelease && (event.event == "removeVersion" || event.event == "addVersion") then
      match event.eventDetails with
      | .versionD (some versionId) =>
        match alistGet st.issuesAtTime event.issueId with
        | none => none
        | some issue =>
          let issue' :=
            if event.event == "addVersion" then
              { issue with versions := issue.versions ++ [versionId] }
            else
              match issue.versions.findIdx? (fun v => v == versionId) with
              | some i =>
                { issue with versions := issue.versions.take i ++ issue.versions.drop (i + 1) }
              | none => issue  -- mismatch only logs a warning
          let issues' := alistSet st.issuesAtTime issue.id issue'
          let vmap := maintainVersionMap st.versionIssueMap versionId issue.id
            (event.event == "addVersion")
          let st := { st with issuesAtTime := issues', versionIssueMap := vmap }
          if versionId == targetId then
            if issue'.typeName == "Story" || issue'.typeName == "Bug" then
              match calculateTotalSizeFuel fuel issues' issue' false,
                    calculateTotalSizeFuel fuel issues' issue' true with
              | some s, some d =>
                if event.event == "addVersion" then
                  some { st with totalSize := st.totalSize + s
                                 totalDoneSize := st.totalDoneSize + d }
                else
                  some { st with totalSize := st.totalSize - s
                                 totalDoneSize := st.totalDoneSize - d }
              | _, _ => none
            else some st
          else some st
      | _ => some st
    else some st
  afterDispatch.map (recordPoints event.datetime)

/-- The event loop: process events in order, breaking at the first
event past the window's upper bound. -/
def replayEvents (fuel : ℕ) (targetId : String) (isRelease : Bool) (toMs : ℤ) :
    ReplayState → List Event → Option ReplayState
  | st, [] => some st
  | st, e :: rest =>
    if e.datetime > toMs then some st
    else
      match replayStep fuel targetId isRelease st e with
      | none => none
      | some st' => replayEvents fuel targetId isRelease toMs st' rest

/-- The result of `calculateScopeAndBurnupTimeseries` (the cache entry
it stores). -/
structure ScopeBurnupResult where
  scopeData : List (ℤ × ℤ)
  burnupData : List (ℤ × ℤ)
  lastUpdateTime : ℤ
  deriving Repr, DecidableEq

/-- Source `calculateScopeAndBurnupTimeseries(window, eventLog, targetId,
isRelease)`: replay the event log against the target, then append a
trailing point at `min(window.now, window.to)`. -/
def calculateScopeAndBurnupTimeseries (fuel : ℕ) (window : Window)
    (eventLog : List Event) (targetId : String) (isRelease : Bool) :
    Option ScopeBurnupResult :=
  (replayEvents fuel targetId isRelease window.toMs initialReplayState eventLog).map
    (fun st =>
      let endTime := if window.now ≥ window.toMs then window.toMs else window.now
      { scopeData := st.scopeData ++ [(st.totalSize, endTime)]
        burnupData := st.burnupData ++ [(st.totalDoneSize, endTime)]
        lastUpdateTime := endTime })

/-! ## Status changes, cycle time and velocity -/

/-- One status transition of an issue (`fromString`/`toString` of a
`status` changelog item, stamped with the history datetime). -/
structure StatusChange where
  issue : JIssue
  fromStatus : Option String
  toStatus : Option String
  datetime : ℤ
  deriving Repr, DecidableEq

/-- JavaScript `array.includes(x)` for a string array against a nullable value. -/
def statusIncludes (statuses : List String) (s : Option String) : Bool :=
  match s with
  | some x => statuses.contains x
  | none => false

/-- A value of the status-change map: the issue and its datetime-sorted
status changes. -/
structure IssueStatusChanges where
  issue : JIssue
  statusChanges : List StatusChange
  deriving Repr, DecidableEq

/-- Source `getStatusChangesByIssueKeyMap`: per issue, collect the `status`
changelog items in history order and stable-sort them by datetime. -/
def getStatusChangesByIssueKeyMap (issues : List JIssue) :
    List (String × IssueStatusChanges) :=
  issues.foldl (fun m issue =>
    let statusChanges := issue.changelog.foldl (fun acc history =>
      acc ++ (history.items.filterMap (fun item =>
        if item.field == "status" then
          some { issue := issue, fromStatus := item.fromString
                 toStatus := item.toString, datetime := history.created }
        else none))) []
    alistSet m issue.key
      { issue := issue, statusChanges := stableSortBy (fun sc => sc.datetime) statusChanges })
    []

/-- A completion/regression transition (`getCompletionEvents` output). -/
structure CompletionEvent where
  completionTransitionDateTime : ℤ
  transitionType : String
  issue : JIssue
  deriving Repr, DecidableEq

/-- Source `getCompletionEvents(statusChangeMap, toStatuses, completionOnly)`:
a transition into the completion set is a `"completion"`, a transition
out of it (unless `completionOnly`) a `"regression"`. -/
def getCompletionEvents (statusChangeMap : List (String × IssueStatusChanges))
    (toStatuses : List String) (completionOnly : Bool := false) :
    List CompletionEvent :=
  statusChangeMap.foldl (fun acc entry =>
    entry.2.statusChanges.foldl (fun acc statusChange =>
      if statusIncludes toStatuses statusChange.toStatus
          && !statusIncludes toStatuses statusChange.fromStatus then
        acc ++ [{ completionTransitionDateTime := statusChange.datetime
                  transitionType := "completion", issue := entry.2.issue }]
      else if !completionOnly && statusIncludes toStatuses statusChange.fromStatus
          && !statusIncludes toStatuses statusChange.toStatus then
        acc ++ [{ completionTransitionDateTime := statusChange.datetime
                  transitionType := "regression", issue := entry.2.issue }]
      else acc) acc) []

/-- Milliseconds in a day. -/
def MS_PER_DAY : ℤ := 1000 * 60 * 60 * 24

/-- Source `calculateCycleTime(statusChanges, fromStatuses, toStatuses,
toDateTime)` in days: from the first transition out of a `from` status
into a non-`from` status (falling back to the datetime of the *first
status change* when none qualifies), to the last transition into a `to`
status from a non-`to` status at or before `toDateTime` (falling back
to the datetime of the last status change).  `none` models the crash on
an empty list (`statusChanges[0].datetime` of `undefined`). -/
def calculateCycleTime (statusChanges : List StatusChange)
    (fromStatuses toStatuses : List String) (toDateTime : ℤ) : Option ℚ :=
  let firstQualifying := statusChanges.find? (fun sc =>
    statusIncludes fromStatuses sc.fromStatus
      && !statusIncludes fromStatuses sc.toStatus)
  let firstTimeForFirstStatus : Option ℤ :=
    match firstQualifying with
    | some sc => some sc.datetime
    | none => statusChanges.head?.map (·.datetime)
  let lastQualifying := statusChanges.reverse.find? (fun sc =>
    decide (sc.datetime ≤ toDateTime)
      && statusIncludes toStatuses sc.toStatus
      && !statusIncludes toStatuses sc.fromStatus)
  let lastTimeForLastStatus : Option ℤ :=
    match lastQualifying with
    | some sc => some sc.datetime
    | none => statusChanges.getLast?.map (·.datetime)
  match firstTimeForFirstStatus, lastTimeForLastStatus with
  | some f, some l => some (((l - f : ℤ) : ℚ) / (MS_PER_DAY : ℚ))
  | _, _ => none

/-- An IEEE-754 result as the source's arithmetic produces it here:
a finite (exactly representable) value, `NaN`, or a signed infinity. -/
inductive JSNum where
  | num (q : ℚ)
  | nan
  | inf
  | ninf
  deriving Repr, DecidableEq

/-- JavaScript division on finite values: `0/0` is `NaN`, `±x/0` is a
signed infinity. -/
def jsDiv (a b : ℚ) : JSNum :=
  if b = 0 then (if a = 0 then .nan else if a > 0 then .inf else .ninf)
  else .num (a / b)

/-- One iteration of the issue loop of
`calculateAverageCycleTimePerPointForIssues`: accumulate
`cycleTime/size`, or bump the ignore counter for a size-0 issue
(`none` propagates a crash of `calculateCycleTime`). -/
def avgCycleStep (fromStatuses toStatuses : List String) (toDateTime : ℤ)
    (acc : Option (ℚ × ℕ)) (entry : String × IssueStatusChanges) : Option (ℚ × ℕ) :=
  match acc with
  | none => none
  | some (totalCycleTimePerPoint, ignoreIssues) =>
    match calculateCycleTime entry.2.statusChanges fromStatuses toStatuses toDateTime with
    | none => none
    | some cycleTime =>
      let size := getIssueSize entry.2.issue
      if size = 0 then some (totalCycleTimePerPoint, ignoreIssues + 1)
      else some (totalCycleTimePerPoint + cycleTime / (size : ℚ), ignoreIssues)

/-- Source `calculateAverageCycleTimePerPointForIssues`: sum `cycleTime/size`
over the issues of the map, skipping (and counting) issues of size 0,
then divide by `(number of issues) - (skipped issues)`. -/
def calculateAverageCycleTimePerPointForIssues
    (statusChangeMap : List (String × IssueStatusChanges))
    (fromStatuses toStatuses : List String) (toDateTime : ℤ) : Option JSNum :=
  let acc := statusChangeMap.foldl (avgCycleStep fromStatuses toStatuses toDateTime)
    (some ((0 : ℚ), (0 : ℕ)))
  acc.map (fun (total, ignore) =>
    jsDiv total ((statusChangeMap.length : ℚ) - (ignore : ℚ)))

/-! ## The velocity sweep (`unsafeGetVelocityCacheUpdatePromise`) -/

/-- The size contribution of a transition: `+size` for a completion,
`-size` for a regression. -/
def signedSize (e : CompletionEvent) : ℤ :=
  if e.transitionType == "regression" then -(getIssueSize e.issue)
  else getIssueSize e.issue

/-- The monotone pointer into the sorted transition list, as the pair
of the already-passed events (most recent first) and the still-pending
events: advance while the next event's datetime is `≤ t`. -/
def advanceTo (t : ℤ) : List CompletionEvent → List CompletionEvent →
    List CompletionEvent × List CompletionEvent
  | done, [] => (done, [])
  | done, e :: todo =>
    if e.completionTransitionDateTime ≤ t then advanceTo t (e :: done) todo
    else (done, e :: todo)

/-- The inner backward scan: walk the passed events from the most
recent, stopping at the first one strictly older than `twoweeksago`,
summing signed sizes. -/
def backSum (twoweeksago : ℤ) : List CompletionEvent → ℤ
  | [] => 0
  | e :: rest =>
    if e.completionTransitionDateTime < twoweeksago then 0
    else signedSize e + backSum twoweeksago rest

/-- Structural engine of `mkSamples`: one loop iteration per unit of
fuel. -/
def mkSamplesAux (fuel : ℕ) (t endT delta : ℤ) : List ℤ :=
  match fuel with
  | 0 => []
  | fuel + 1 =>
    if 0 < delta ∧ t ≤ endT then t :: mkSamplesAux fuel (t + delta) endT delta
    else []

/-- The sample instants `window.from, window.from + intervalMs, …` up
to the calculation end.  The source's `for` loop diverges when
`intervalMs ≤ 0`; for a positive interval each iteration closes the
remaining gap by at least one, so `(endT + 1 - t).toNat` units of fuel
always suffice and the fuel never runs out before the loop guard
fails. -/
def mkSamples (t endT delta : ℤ) : List ℤ :=
  mkSamplesAux (endT + 1 - t).toNat t endT delta

/-- The sweep of the velocity loop: for each sample instant advance the
pointer, then sum the signed sizes of the trailing two-week window
(`setDate(getDate() - 14)` is fourteen calendar days, i.e. `14` days of
milliseconds on DST-free timestamps). -/
def velocitySweepAux (done todo : List CompletionEvent) :
    List ℤ → List (ℤ × ℤ)
  | [] => []
  | t :: rest =>
    let step := advanceTo t done todo
    (backSum (t - 14 * MS_PER_DAY) step.1, t) :: velocitySweepAux step.1 step.2 rest

/-- The velocity time series of
`unsafeGetVelocityCacheUpdatePromise` from the sorted transition list:
one `[velocity, t]` point per sample instant from `window.from` to
`min(window.now, window.to)`. -/
def velocityTimeseries (window : Window)
    (sortedCompletionEvents : List CompletionEvent) : List (ℤ × ℤ) :=
  let calcEndDatetime := if window.toMs > window.now then window.now else window.toMs
  velocitySweepAux [] sortedCompletionEvents
    (mkSamples window.fromMs calcEndDatetime window.intervalMs)

/-- The full velocity-cache computation from the issue corpus: filter
out Epics and Initiatives (and foreign projects), derive the
completion/regression transitions, sort them by datetime, sweep. -/
def velocityCacheFromIssues (window : Window) (issues : List JIssue)
    (futureStatuses : List String) (projectKey : Option String) : List (ℤ × ℤ) :=
  let filteredIssueArray := issues.filter (fun issue =>
    issue.issuetypeName ≠ "Initiative" && issue.issuetypeName ≠ "Epic")
  let filteredIssueArray :=
    match projectKey with
    | none => filteredIssueArray
    | some pk => filteredIssueArray.filter (fun issue => issue.projectKey == pk)
  let completionEventsMap :=
    getCompletionEvents (getStatusChangesByIssueKeyMap filteredIssueArray) futureStatuses
  let sortedCompletionEvents :=
    stableSortBy (fun e => e.completionTransitionDateTime) completionEventsMap
  velocityTimeseries window sortedCompletionEvents

/-! ## Velocity bounds and burnup projection -/

/-- The `{max, cur, min}` velocity bounds. -/
structure VBounds where
  max : ℚ
  cur : ℚ
  min : ℚ
  deriving Repr, DecidableEq

/-- The pure core of `getVelocityBoundsFromHistoricDataPromise`:
restrict the cached velocity series to points at or after
`window.from`, then take the pointwise min/max and the last value.
`none` models the `TypeError` thrown by `velocities[0][0]` on an empty
filtered series (the promise rejects and no bounds are produced). -/
def getVelocityBoundsFromHistoricData (windowFrom : ℤ)
    (velocityCache : List (ℤ × ℤ)) : Option VBounds :=
  let velocities := velocityCache.filter (fun value => value.2 ≥ windowFrom)
  match velocities with
  | [] => none
  | v0 :: rest =>
    let minV := velocities.foldl (fun m v => Min.min (v.1 : ℚ) m) (v0.1 : ℚ)
    let maxV := velocities.foldl (fun m v => Max.max (v.1 : ℚ) m) (v0.1 : ℚ)
    let curV := ((rest.getLastD v0).1 : ℚ)
    some { max := maxV, cur := curV, min := minV }

/-- One output series of the datasource (`{target, datapoints}`). -/
structure Series where
  target : String
  datapoints : List (ℚ × ℤ)
  deriving Repr, DecidableEq

/-- Source `addVerticalLine`: a two-point vertical marker series. -/
def addVerticalLine (datetime : ℤ) (targetName : String)
    (maxVerticalPoint : ℚ) (result : List Series) : List Series :=
  result ++ [{ target := targetName
               datapoints := [(0, datetime), (maxVerticalPoint, datetime)] }]

/-- Milliseconds in a fortnight (`1000*60*60*24*14`). -/
def MS_PER_FORTNIGHT : ℤ := 1000 * 60 * 60 * 24 * 14

/-- JavaScript `Math.max` over the values of a non-empty series prefix list. -/
def seriesMax (values : List ℚ) (acc : ℚ) : ℚ := values.foldl Max.max acc

/-- The pure core of `getBurnupProjectionFromCachePromise` once the
velocity bounds are determined: push the three projected burnup lines,
the flat scope projection, and the two vertical marker lines.  `none`
models the crash on an empty scope or burnup series
(`scopeData[scopeData.length-1]` of an empty array). -/
def getBurnupProjectionFromCache (window : Window) (vBounds : VBounds)
    (scopeData burnupData : List (ℚ × ℤ)) (targetReleaseDate : ℤ)
    (result : List Series) : Option (List Series) :=
  match scopeData.getLast?, burnupData.getLast? with
  | some scopeLast, some burnupLast =>
    let timeDiffFortnights : ℚ :=
      ((window.toMs - window.now : ℤ) : ℚ) / (MS_PER_FORTNIGHT : ℚ)
    let scopeNow := scopeLast.1
    let doneScopeNow := burnupLast.1
    let maxVScope := doneScopeNow + timeDiffFortnights * vBounds.max
    let curVScope := doneScopeNow + timeDiffFortnights * vBounds.cur
    let minVScope := doneScopeNow + timeDiffFortnights * vBounds.min
    let result := result ++
      [{ target := "Max V projection"
         datapoints := [(doneScopeNow, window.now), (maxVScope, window.toMs)] },
       { target := "Cur V projection"
         datapoints := [(doneScopeNow, window.now), (curVScope, window.toMs)] },
       { target := "Min V projection"
         datapoints := [(doneScopeNow, window.now), (minVScope, window.toMs)] },
       { target := "Scope projection"
         datapoints := [(scopeNow, window.now), (scopeNow, window.toMs)] }]
    let highestPoint := seriesMax (scopeData.map (·.1)) scopeLast.1
    let highestPoint := seriesMax (burnupData.map (·.1)) (Max.max highestPoint maxVScope)
    let result := addVerticalLine window.now "Now" highestPoint result
    let result := addVerticalLine targetReleaseDate "Target" highestPoint result
    some result
  | _, _ => none

/-! ## Specification-side helpers used by theorem statements -/

/-- The `parentId` property of created-event details. -/
def createdParentId (d : EvDetails) : Option String :=
  match d with
  | .createdD _ _ _ _ parentId _ _ _ => parentId
  | _ => none

/-- The `parentID` property of created-event details (the property the
retroactive parent correction actually writes). -/
def createdParentID (d : EvDetails) : Option String :=
  match d with
  | .createdD _ _ _ _ _ parentID _ _ => parentID
  | _ => none

/-- The sum of the signed size contributions of all transitions whose
timestamp lies in the closed interval `[lo, hi]` (the specification's
description of one velocity point). -/
def rangeSum (es : List CompletionEvent) (lo hi : ℤ) : ℤ :=
  ((es.filter (fun e =>
      decide (lo ≤ e.completionTransitionDateTime)
        && decide (e.completionTransitionDateTime ≤ hi))).map signedSize).sum

/-- Acyclicity of the parent relation of a snapshot arena, witnessed by
a rank function that strictly decreases along every resolvable
effective-parent edge between arena entries. -/
def ParentAcyclic (issues : List (String × Snapshot))
    (keyToIdMap : List (String × String)) (rank : String → ℕ) : Prop :=
  ∀ p ∈ issues, ∀ pid, effectiveParentId keyToIdMap p.2 = some pid →
    ∀ s', alistGet issues pid = some s' → rank pid < rank p.1

/-- Acyclicity of the children relation of a snapshot arena, witnessed
by a rank function that strictly decreases from every arena entry to
each of its children. -/
def ChildrenAcyclic (issues : List (String × Snapshot)) (rank : String → ℕ) : Prop :=
  ∀ p ∈ issues, ∀ c ∈ p.2.children, rank c < rank p.1

/-- Every child id of every arena entry is itself in the arena (always
true in the source, where children are direct object references). -/
def ChildrenClosed (issues : List (String × Snapshot)) : Prop :=
  ∀ p ∈ issues, ∀ c ∈ p.2.children, (alistGet issues c).isSome

/-! ## Concrete inputs used by the counterexamples and witnesses -/

/-- Milliseconds of day `n` (timestamps at UTC midnight). -/
def day (n : ℤ) : ℤ := n * MS_PER_DAY

/-- A minimal leaf issue of the given key and story-point size with an
empty changelog. -/
def mkLeafIssue (k : String) (sz : ℤ) : JIssue :=
  { id := k, key := k, created := 0, issuetypeName := "Story", projectKey := "P"
    customfield_10016 := some sz, customfield_10009 := none
    customfield_10008 := none, fixVersions := [], changelog := [] }

/-- C1 failing input: an Epic currently linked to initiative `I2` whose
history records a parent-initiative change from `I1` to `I2`. -/
def epicWithParentChange : JIssue :=
  { id := "100", key := "E-1", created := 1000, issuetypeName := "Epic"
    projectKey := "P", customfield_10016 := some 0
    customfield_10009 := some ⟨"I2", "IK2"⟩
    customfield_10008 := none, fixVersions := []
    changelog := [{ id := 5, created := 2000
                    items := [{ field := "Parent Link", fieldId := some "customfield_10009"
                                fromVal := none, fromString := some "I1"
                                toVal := none, toString := some "I2" }] }] }

/-- C9 counterexample input: a story whose resolution change carries
the same timestamp as its creation. -/
def storyWithCreationTimeChange : JIssue :=
  { id := "200", key := "S-1", created := 1000, issuetypeName := "Story"
    projectKey := "P", customfield_10016 := some 3
    customfield_10009 := none, customfield_10008 := none, fixVersions := []
    changelog := [{ id := 7, created := 1000
                    items := [{ field := "resolution", fieldId := some "resolution"
                                fromVal := none, fromString := none
                                toVal := some "10000", toString := some "Done" }] }] }

/-- C9 witness input: a story created at `t = 1000` resolved at
`t = 2000`. -/
def storyWithLaterChange : JIssue :=
  { id := "300", key := "S-2", created := 1000, issuetypeName := "Story"
    projectKey := "P", customfield_10016 := some 3
    customfield_10009 := none, customfield_10008 := none, fixVersions := []
    changelog := [{ id := 8, created := 2000
                    items := [{ field := "resolution", fieldId := some "resolution"
                                fromVal := none, fromString := none
                                toVal := some "10000", toString := some "Done" }] }] }

/-- C3 failing input, root: the target initiative. -/
def initiativeT : JIssue :=
  { id := "1", key := "T-1", created := 0, issuetypeName := "Initiative"
    projectKey := "P", customfield_10016 := some 0
    customfield_10009 := none, customfield_10008 := none, fixVersions := []
    changelog := [] }

/-- C3 failing input, middle: an Epic under the initiative, created
after the story that links to it. -/
def epicUnderT : JIssue :=
  { id := "2", key := "E-2", created := 1000, issuetypeName := "Epic"
    projectKey := "P", customfield_10016 := some 0
    customfield_10009 := some ⟨"1", "T-1"⟩
    customfield_10008 := none, fixVersions := []
    changelog := [] }

/-- C3 failing input, leaf: a story created before its epic, whose
story points changed from 5 to 0 later. -/
def storyBeforeEpic : JIssue :=
  { id := "3", key := "S-3", created := 500, issuetypeName := "Story"
    projectKey := "P", customfield_10016 := some 0
    customfield_10009 := none, customfield_10008 := some "E-2", fixVersions := []
    changelog := [{ id := 9, created := 2000
                    items := [{ field := "Story Points", fieldId := some "customfield_10016"
                                fromVal := none, fromString := some "5"
                                toVal := none, toString := some "0" }] }] }

/-- C3 failing input: the corpus. -/
def c3corpus : List JIssue := [initiativeT, storyBeforeEpic, epicUnderT]

/-- C3 window: `[0, 10000]`, now at `5000`. -/
def c3window : Window := { now := 5000, fromMs := 0, toMs := 10000, intervalMs := 1000 }

/-- C2 snapshots: the target initiative. -/
def snapInitiative : Snapshot :=
  { id := "1", key := "T-1", typeName := "Initiative", size := some 0
    resolved := false, parentId := none, parentKey := none, children := [], versions := [] }

/-- C2 snapshots: an Epic under the initiative with child `"3"`. -/
def snapEpic : Snapshot :=
  { id := "2", key := "E-2", typeName := "Epic", size := some 0
    resolved := false, parentId := some "1", parentKey := some "T-1"
    children := ["3"], versions := [] }

/-- C2 snapshots: a size-4 story, child of the Epic. -/
def snapStory : Snapshot :=
  { id := "3", key := "S-3", typeName := "Story", size := some 4
    resolved := false, parentId := none, parentKey := some "E-2", children := [], versions := [] }

/-- C2 failing input: the Replay State in which the Epic (a descendant
of target `"1"`) holds the known child `"3"` and the totals are settled
(`previous*` equal the totals so that an unchanged state records no
points). -/
def removeChildState : ReplayState :=
  { issuesAtTime := [("1", snapInitiative), ("2", snapEpic), ("3", snapStory)]
    keyToIdMap := [("T-1", "1"), ("E-2", "2"), ("S-3", "3")]
    totalSize := 4, previousTotalSize := some 4
    totalDoneSize := 0, previousTotalDoneSize := some 0
    versionIssueMap := [], scopeData := [], burnupData := [] }

/-- C2 failing input: the `removeChild` event for the known child. -/
def removeChildEvent : Event :=
  { datetime := 3000, issueId := "2", event := "removeChild"
    eventDetails := .childD (some "3") }

/-- C2: the same state before the child was added (Epic with no
children, totals without the story). -/
def addChildState : ReplayState :=
  { removeChildState with
    issuesAtTime := [("1", snapInitiative), ("2", { snapEpic with children := [] }),
                     ("3", snapStory)]
    totalSize := 0, previousTotalSize := some 0 }

/-- C2: the `addChild` event for the known child. -/
def addChildEvent : Event :=
  { datetime := 3000, issueId := "2", event := "addChild"
    eventDetails := .childD (some "3") }

/-- C4 failing input: a single status change at day 2 out of `"To Do"`
(the configured from-set is `["Backlog"]`, so no qualifying from-
transition exists) into `"Done"`, for an issue created at `t = 0`. -/
def c4statusChanges : List StatusChange :=
  [{ issue := mkLeafIssue "C4" 2, fromStatus := some "To Do"
     toStatus := some "Done", datetime := day 2 }]

/-- C5 example entries: a size-0 issue with a 5-day cycle time and a
size-2 issue with a 4-day cycle time. -/
def c5statusChangeMap : List (String × IssueStatusChanges) :=
  [("A", { issue := mkLeafIssue "A" 0
           statusChanges :=
             [{ issue := mkLeafIssue "A" 0, fromStatus := some "To Do"
                toStatus := some "Doing", datetime := day 0 },
              { issue := mkLeafIssue "A" 0, fromStatus := some "Doing"
                toStatus := some "Done", datetime := day 5 }] }),
   ("B", { issue := mkLeafIssue "B" 2
           statusChanges :=
             [{ issue := mkLeafIssue "B" 2, fromStatus := some "To Do"
                toStatus := some "Doing", datetime := day 0 },
              { issue := mkLeafIssue "B" 2, fromStatus := some "Doing"
                toStatus := some "Done", datetime := day 4 }] })]

/-- C5 example entries: only the size-0 issue. -/
def c5allZeroMap : List (String × IssueStatusChanges) :=
  [("A", { issue := mkLeafIssue "A" 0
           statusChanges :=
             [{ issue := mkLeafIssue "A" 0, fromStatus := some "To Do"
                toStatus := some "Doing", datetime := day 0 },
              { issue := mkLeafIssue "A" 0, fromStatus := some "Doing"
                toStatus := some "Done", datetime := day 5 }] })]

/-- C6 example transitions: completions of sizes 3 and 5 on day 1, a
regression of size 3 on day 10 (already datetime-sorted). -/
def c6completionEvents : List CompletionEvent :=
  [{ completionTransitionDateTime := day 1, transitionType := "completion"
     issue := mkLeafIssue "A" 3 },
   { completionTransitionDateTime := day 1, transitionType := "completion"
     issue := mkLeafIssue "B" 5 },
   { completionTransitionDateTime := day 10, transitionType := "regression"
     issue := mkLeafIssue "A" 3 }]

/-- C6 window: daily samples from day 0 to day 13 (now past day 13). -/
def c6window : Window :=
  { now := day 14, fromMs := 0, toMs := day 13, intervalMs := MS_PER_DAY }

/-- C7 window: one fortnight between now and `window.to`. -/
def c7window : Window :=
  { now := day 0, fromMs := day (-10), toMs := day 14, intervalMs := MS_PER_DAY }

/-- C7 example bounds `{max: 10, cur: 6, min: 2}`. -/
def c7bounds : VBounds := { max := 10, cur := 6, min := 2 }

/-- C7 example scope series (last value 25). -/
def c7scopeData : List (ℚ × ℤ) := [(25, day (-1))]

/-- C7 example burnup series (`doneNow = 20`). -/
def c7burnupData : List (ℚ × ℤ) := [(20, day (-1))]

/-- C8 corpus: a single story that never completed (empty changelog,
hence no completion transitions at all). -/
def c8corpus : List JIssue := [mkLeafIssue "N" 3]

/-- C8 window: daily samples from day 0 to day 13. -/
def c8window : Window :=
  { now := day 14, fromMs := 0, toMs := day 13, intervalMs := MS_PER_DAY }

/-- C10 cyclic arena: two snapshots that name each other as parent. -/
def snapCycleA : Snapshot :=
  { id := "A", key := "A", typeName := "Epic", size := some 1
    resolved := false, parentId := some "B", parentKey := none, children := [], versions := [] }

/-- C10 cyclic arena: the second snapshot of the two-cycle. -/
def snapCycleB : Snapshot :=
  { id := "B", key := "B", typeName := "Epic", size := some 1
    resolved := false, parentId := some "A", parentKey := none, children := [], versions := [] }

/-- C10 cyclic arena. -/
def cyclicIssues : List (String × Snapshot) := [("A", snapCycleA), ("B", snapCycleB)]

/-! ## Helper lemmas: the stable sort -/

theorem mem_stableInsert {α : Type} (key : α → ℤ) (a b : α) (l : List α) :
    b ∈ stableInsert key a l ↔ b = a ∨ b ∈ l := by
  induction l with
  | nil => simp [stableInsert]
  | cons x xs ih =>
    by_cases hx : key x ≤ key a
    · simp only [stableInsert, if_pos hx, List.mem_cons, ih]
      tauto
    · simp only [stableInsert, if_neg hx, List.mem_cons]

theorem pairwise_stableInsert {α : Type} (key : α → ℤ) (a : α) (l : List α)
    (h : l.Pairwise (fun x y => key x ≤ key y)) :
    (stableInsert key a l).Pairwise (fun x y => key x ≤ key y) := by
  induction l with
  | nil => simp [stableInsert]
  | cons x xs ih =>
    rw [List.pairwise_cons] at h
    by_cases hx : key x ≤ key a
    · simp only [stableInsert, if_pos hx]
      rw [List.pairwise_cons]
      refine ⟨?_, ih h.2⟩
      intro b hb
      rcases (mem_stableInsert key a b xs).mp hb with rfl | hb
      · exact hx
      · exact h.1 b hb
    · simp only [stableInsert, if_neg hx]
      rw [List.pairwise_cons]
      refine ⟨?_, List.pairwise_cons.mpr h⟩
      intro b hb
      rcases List.mem_cons.mp hb with rfl | hb
      · omega
      · exact le_trans (by omega) (h.1 b hb)

theorem pairwise_stableSortBy {α : Type} (key : α → ℤ) (l : List α) :
    (stableSortBy key l).Pairwise (fun x y => key x ≤ key y) := by
  suffices h : ∀ acc, acc.Pairwise (fun x y => key x ≤ key y) →
      (l.foldl (fun acc a => stableInsert key a acc) acc).Pairwise
        (fun x y => key x ≤ key y) by
    exact h [] (by simp)
  induction l with
  | nil => intro acc hacc; simpa using hacc
  | cons x xs ih =>
    intro acc hacc
    exact ih _ (pairwise_stableInsert key x acc hacc)

/-! ## The claims -/

/-- Claim C1 (code bug): the retroactive parent correction of the
`created` event writes the property `parentID`, not the `parentId`
property the created event carries and the replay reads.  For an Epic
whose history records a parent change `I1 → I2`, the synthesized
`created` event keeps `parentId = I2` (the current value) instead of
the from-value `I1` the claim requires; the from-value only lands in
the dead `parentID` property, so replaying forward from the created
event does not reproduce the historical parent. -/
theorem c1_created_parentId_not_patched_to_from_value :
    ((calculateFullEventLog [epicWithParentChange]).head?.map
        (fun e => (e.event, createdParentId e.eventDetails,
                   createdParentID e.eventDetails))) =
      some ("created", some "I2", some "I1") ∧ (some "I2" : Option String) ≠ some "I1" := by
  constructor
  · rfl
  · decide

/-- Claim C2 (code bug): processing `addChild` for a known child does
insert the child and add its subtree sizes to the totals, but
`removeChild` is *always* a no-op, even for a known child: the source
looks for the child via `child.issueId`, a property that does not exist
on snapshot objects (they carry `id`), so the `findIndex` never
matches.  On a state whose Epic `"2"` (a descendant of target `"1"`)
holds the known child `"3"` of size 4, the `removeChild` event returns
the state unchanged instead of removing the child and decreasing
`totalScope` by 4. -/
theorem c2_removeChild_is_noop_for_known_child :
    ((replayStep 10 "1" false addChildState addChildEvent).map
        (fun st => (st.totalSize, st.totalDoneSize,
                    (alistGet st.issuesAtTime "2").map (·.children)))) =
      some (4, 0, some ["3"]) ∧
    (alistGet removeChildState.issuesAtTime "3").isSome = true ∧
    "3" ∈ snapEpic.children ∧
    replayStep 10 "1" false removeChildState removeChildEvent = some removeChildState := by
  refine ⟨by rfl, by rfl, by decide, by rfl⟩

/-- Claim C3 (code bug): the Scope series is *not* always ≥ 0 for
non-negative sizes and a single-root target.  In the corpus, story
`S-3` (created before its epic `E-2`, so not yet recognized as a
descendant of target `T-1` at creation time) never contributes its
size 5 to `totalScope`; when its later `sizeChange 5 → 0` arrives while
it *is* a descendant, the replay subtracts the never-added 5 and the
Scope series goes to −5. -/
theorem c3_scope_series_negative :
    (∀ i ∈ c3corpus, 0 ≤ getIssueSize i) ∧
    ((calculateScopeAndBurnupTimeseries 10 c3window
        (calculateFullEventLog c3corpus) "1" false).map (·.scopeData)) =
      some [(0, 0), (-5, 2000), (-5, 5000)] ∧
    (-5 : ℤ) < 0 := by
  refine ⟨by decide, by decide, by decide⟩

/-- Claim C4 (code bug): when no qualifying "from" transition exists,
`calculateCycleTime` starts the interval at the datetime of the *first
status change*, not at the issue's creation timestamp as the claim (and
the source's own comment, "count it from creation") prescribe.  For an
issue created at `t = 0` whose only status change (out of a status not
in the from-set) happens at day 2 and completes it, the source returns
a cycle time of 0 days where the claim requires 2 days. -/
theorem c4_cycle_time_starts_at_first_status_change :
    calculateCycleTime c4statusChanges ["Backlog"] ["Done"] (day 10) = some 0 ∧
    ((day 2 - (mkLeafIssue "C4" 2).created : ℤ) : ℚ) / (MS_PER_DAY : ℚ) = 2 ∧
    (0 : ℚ) ≠ 2 := by
  refine ⟨?_, by norm_num [day, MS_PER_DAY, mkLeafIssue], by norm_num⟩
  simp [calculateCycleTime, c4statusChanges, statusIncludes, mkLeafIssue, day,
    MS_PER_DAY, List.find?]

/-- Claim C9 (counterexample): the `created` event is *not* always first
among an issue's events.  Per issue the source pushes the history
events first and the created event last, and the global stable sort
preserves that order on timestamp ties, so a change event sharing the
creation timestamp precedes the `created` event. -/
theorem c9_change_at_creation_time_precedes_created :
    (calculateFullEventLog [storyWithCreationTimeChange]).map
        (fun e => (e.event, e.issueId, e.datetime)) =
      [("resolutionChange", "200", 1000), ("created", "200", 1000)] := by
  rfl

/-- Claim C9 (amended): the Event Log is globally sorted ascending by
timestamp (hence, per fixed issue, events are ordered by timestamp and
the `created` event precedes every event of its issue with a strictly
later timestamp), and the log is a deterministic function of the
corpus; but on timestamp ties a history event of the same issue
precedes the `created` event (insertion order: per-issue history events
first, then the created event, issues in corpus order). -/
theorem c9_event_log_sorted_created_before_later_events (issues : List JIssue) :
    ((calculateFullEventLog issues).Pairwise (fun a b => a.datetime ≤ b.datetime)) ∧
    (∀ i j (hi : i < (calculateFullEventLog issues).length)
        (hj : j < (calculateFullEventLog issues).length),
      ((calculateFullEventLog issues).get ⟨j, hj⟩).event = "created" →
      ((calculateFullEventLog issues).get ⟨i, hi⟩).issueId =
        ((calculateFullEventLog issues).get ⟨j, hj⟩).issueId →
      ((calculateFullEventLog issues).get ⟨j, hj⟩).datetime <
        ((calculateFullEventLog issues).get ⟨i, hi⟩).datetime →
      j < i) := by
  have hsorted : (calculateFullEventLog issues).Pairwise
      (fun a b => a.datetime ≤ b.datetime) :=
    pairwise_stableSortBy (fun e : Event => e.datetime) _
  refine ⟨hsorted, ?_⟩
  intro i j hi hj _hev _hid hlt
  by_contra hji
  push_neg at hji
  rcases Nat.lt_or_ge i j with hij | hij
  · have := (List.pairwise_iff_get.mp hsorted) ⟨i, hi⟩ ⟨j, hj⟩ hij
    omega
  · have : i = j := by omega
    subst this
    omega

/-- Claim C9 witness: the amended ordering theorem applied to a concrete
one-issue corpus (created at 1000, resolved at 2000): the log is sorted
and the created event (index 0) precedes the strictly later resolution
event (index 1). -/
theorem c9_event_log_sorted_witness :
    ((calculateFullEventLog [storyWithLaterChange]).Pairwise
      (fun a b => a.datetime ≤ b.datetime)) ∧ (0 : ℕ) < 1 := by
  have h := c9_event_log_sorted_created_before_later_events [storyWithLaterChange]
  exact ⟨h.1, h.2 1 0 (by decide) (by decide) (by rfl) (by rfl) (by decide)⟩

/-! ## Helper lemmas: the velocity sweep -/

theorem advanceTo_append (t : ℤ) (done todo : List CompletionEvent) :
    (advanceTo t done todo).1.reverse ++ (advanceTo t done todo).2 =
      done.reverse ++ todo := by
  induction todo generalizing done with
  | nil => simp [advanceTo]
  | cons e tl ih =>
    by_cases he : e.completionTransitionDateTime ≤ t
    · simp only [advanceTo, if_pos he]
      rw [ih (e :: done)]
      simp
    · simp [advanceTo, if_neg he]

theorem advanceTo_done_le (t : ℤ) (done todo : List CompletionEvent)
    (hdone : ∀ x ∈ done, x.completionTransitionDateTime ≤ t) :
    ∀ x ∈ (advanceTo t done todo).1, x.completionTransitionDateTime ≤ t := by
  induction todo generalizing done with
  | nil => simpa [advanceTo] using hdone
  | cons e tl ih =>
    by_cases he : e.completionTransitionDateTime ≤ t
    · simp only [advanceTo, if_pos he]
      exact ih (e :: done) (by
        intro x hx
        rcases List.mem_cons.mp hx with rfl | hx
        · exact he
        · exact hdone x hx)
    · simpa [advanceTo, if_neg he] using hdone

theorem advanceTo_todo_gt (t : ℤ) (done todo : List CompletionEvent)
    (hsorted : todo.Pairwise (fun a b =>
      a.completionTransitionDateTime ≤ b.completionTransitionDateTime)) :
    ∀ x ∈ (advanceTo t done todo).2, t < x.completionTransitionDateTime := by
  induction todo generalizing done with
  | nil => simp [advanceTo]
  | cons e tl ih =>
    rw [List.pairwise_cons] at hsorted
    by_cases he : e.completionTransitionDateTime ≤ t
    · simp only [advanceTo, if_pos he]
      exact ih (e :: done) hsorted.2
    · simp only [advanceTo, if_neg he]
      intro x hx
      rcases List.mem_cons.mp hx with rfl | hx
      · omega
      · have := hsorted.1 x hx
        omega

theorem backSum_eq_filter (lo : ℤ) (done : List CompletionEvent)
    (hsorted : done.Pairwise (fun a b =>
      b.completionTransitionDateTime ≤ a.completionTransitionDateTime)) :
    backSum lo done =
      ((done.filter (fun e => decide (lo ≤ e.completionTransitionDateTime))).map
        signedSize).sum := by
  induction done with
  | nil => simp [backSum]
  | cons e rest ih =>
    rw [List.pairwise_cons] at hsorted
    by_cases he : e.completionTransitionDateTime < lo
    · simp only [backSum, if_pos he]
      have hrest : rest.filter
          (fun e => decide (lo ≤ e.completionTransitionDateTime)) = [] := by
        rw [List.filter_eq_nil_iff]
        intro x hx
        have := hsorted.1 x hx
        simp only [decide_eq_true_eq]
        omega
      have hne : ¬ lo ≤ e.completionTransitionDateTime := by omega
      simp [hrest, hne]
    · have hle : lo ≤ e.completionTransitionDateTime := by omega
      simp only [backSum, if_neg he, ih hsorted.2]
      rw [List.filter_cons_of_pos (by simp [hle])]
      simp

theorem velocitySweepAux_eq (samples : List ℤ) :
    ∀ (done todo : List CompletionEvent),
      ((done.reverse ++ todo).Pairwise (fun a b =>
        a.completionTransitionDateTime ≤ b.completionTransitionDateTime)) →
      (∀ x ∈ done, ∀ t ∈ samples, x.completionTransitionDateTime ≤ t) →
      samples.Pairwise (· ≤ ·) →
      velocitySweepAux done todo samples =
        samples.map (fun t =>
          (rangeSum (done.reverse ++ todo) (t - 14 * MS_PER_DAY) t, t)) := by
  induction samples with
  | nil => intro done todo _ _ _; simp [velocitySweepAux]
  | cons t rest ih =>
    intro done todo hsorted hdone hsamples
    rw [List.pairwise_cons] at hsamples
    have hA := advanceTo_append t done todo
    have hd2 : ∀ x ∈ (advanceTo t done todo).1, x.completionTransitionDateTime ≤ t :=
      advanceTo_done_le t done todo (fun x hx => hdone x hx t (by simp))
    have htodoSorted : todo.Pairwise (fun a b =>
        a.completionTransitionDateTime ≤ b.completionTransitionDateTime) :=
      ((List.pairwise_append).mp hsorted).2.1
    have ht2 : ∀ x ∈ (advanceTo t done todo).2, t < x.completionTransitionDateTime :=
      advanceTo_todo_gt t done todo htodoSorted
    have hsorted2 : ((advanceTo t done todo).1.reverse ++ (advanceTo t done todo).2).Pairwise
        (fun a b => a.completionTransitionDateTime ≤ b.completionTransitionDateTime) := by
      rw [hA]; exact hsorted
    -- the head sample's value is the closed-interval range sum
    have hd2desc : (advanceTo t done todo).1.Pairwise (fun a b =>
        b.completionTransitionDateTime ≤ a.completionTransitionDateTime) := by
      have := ((List.pairwise_append).mp hsorted2).1
      rwa [List.pairwise_reverse] at this
    have hhead : backSum (t - 14 * MS_PER_DAY) (advanceTo t done todo).1 =
        rangeSum (done.reverse ++ todo) (t - 14 * MS_PER_DAY) t := by
      rw [backSum_eq_filter _ _ hd2desc, rangeSum, ← hA]
      rw [List.filter_append]
      have h2 : (advanceTo t done todo).2.filter (fun e =>
          decide (t - 14 * MS_PER_DAY ≤ e.completionTransitionDateTime)
            && decide (e.completionTransitionDateTime ≤ t)) = [] := by
        rw [List.filter_eq_nil_iff]
        intro x hx
        have := ht2 x hx
        simp only [Bool.and_eq_true, decide_eq_true_eq]
        omega
      have h1 : (advanceTo t done todo).1.reverse.filter (fun e =>
          decide (t - 14 * MS_PER_DAY ≤ e.completionTransitionDateTime)
            && decide (e.completionTransitionDateTime ≤ t)) =
          (advanceTo t done todo).1.reverse.filter (fun e =>
            decide (t - 14 * MS_PER_DAY ≤ e.completionTransitionDateTime)) := by
        apply List.filter_congr
        intro x hx
        have hxle := hd2 x (List.mem_reverse.mp hx)
        simp only [Bool.and_eq_true, decide_eq_true_eq, Bool.and_iff_left_iff_imp,
          decide_eq_true_eq]
        intro _
        exact hxle
      rw [h2, h1, List.append_nil, List.filter_reverse, List.map_reverse,
        List.sum_reverse]
    -- assemble
    simp only [velocitySweepAux, List.map_cons]
    refine congrArg₂ _ (by rw [hhead]) ?_
    rw [ih (advanceTo t done todo).1 (advanceTo t done todo).2 hsorted2
      (fun x hx t' ht' => le_trans (hd2 x hx) (hsamples.1 t' ht')) hsamples.2, hA]

theorem mkSamplesAux_mem_le (fuel : ℕ) :
    ∀ (t e d : ℤ), ∀ x ∈ mkSamplesAux fuel t e d, t ≤ x := by
  induction fuel with
  | zero => simp [mkSamplesAux]
  | succ n ih =>
    intro t e d x hx
    simp only [mkSamplesAux] at hx
    by_cases h : 0 < d ∧ t ≤ e
    · rw [if_pos h] at hx
      rcases List.mem_cons.mp hx with rfl | hx
      · omega
      · have := ih (t + d) e d x hx
        omega
    · rw [if_neg h] at hx
      simp at hx

theorem mkSamplesAux_pairwise (fuel : ℕ) :
    ∀ (t e d : ℤ), (mkSamplesAux fuel t e d).Pairwise (· ≤ ·) := by
  induction fuel with
  | zero => simp [mkSamplesAux]
  | succ n ih =>
    intro t e d
    simp only [mkSamplesAux]
    by_cases h : 0 < d ∧ t ≤ e
    · rw [if_pos h, List.pairwise_cons]
      refine ⟨fun x hx => ?_, ih (t + d) e d⟩
      have := mkSamplesAux_mem_le n (t + d) e d x hx
      omega
    · rw [if_neg h]
      simp

theorem mkSamples_pairwise (t e d : ℤ) : (mkSamples t e d).Pairwise (· ≤ ·) :=
  mkSamplesAux_pairwise _ t e d

/-- Claim C6 (counterexample): on the claim's own synthetic set (two
completions of sizes 3 and 5 on day 1, one regression of size 3 on
day 10) the reported velocity at day 13 is 5, not the claimed 8: the
day-10 regression lies inside the trailing window `[day -1, day 13]`
and is subtracted, exactly as the claim's own general formula
dictates. -/
theorem c6_velocity_at_day_13_is_5_not_8 :
    (velocityTimeseries c6window c6completionEvents).getLast? = some (5, day 13) ∧
    (5 : ℤ) ≠ 8 := by
  constructor
  · decide
  · decide

/-- Claim C6 (amended): for every sample instant `t` stepping from
`window.from` to `min(window.now, window.to)` by the (positive)
requested interval, the reported velocity at `t` equals the sum of
`+size` per completion and `-size` per regression with timestamp in
`[t - 14 days, t]`; on the synthetic set the velocity at day 13 is 5
and at day 11 is 5. -/
theorem c6_velocity_is_trailing_window_sum :
    (∀ (window : Window) (es : List CompletionEvent),
      es.Pairwise (fun a b =>
        a.completionTransitionDateTime ≤ b.completionTransitionDateTime) →
      velocityTimeseries window es =
        (mkSamples window.fromMs
            (if window.toMs > window.now then window.now else window.toMs)
            window.intervalMs).map
          (fun t => (rangeSum es (t - 14 * MS_PER_DAY) t, t))) ∧
    velocityTimeseries c6window c6completionEvents =
      [(0, day 0), (8, day 1), (8, day 2), (8, day 3), (8, day 4), (8, day 5),
       (8, day 6), (8, day 7), (8, day 8), (8, day 9), (5, day 10), (5, day 11),
       (5, day 12), (5, day 13)] := by
  constructor
  · intro window es hsorted
    exact velocitySweepAux_eq _ [] es (by simpa using hsorted) (by simp)
      (mkSamples_pairwise _ _ _)
  · decide

/-- Claim C6 witness: the amended theorem applied to the synthetic
transition set and window. -/
theorem c6_velocity_is_trailing_window_sum_witness :
    velocityTimeseries c6window c6completionEvents =
      (mkSamples c6window.fromMs
          (if c6window.toMs > c6window.now then c6window.now else c6window.toMs)
          c6window.intervalMs).map
        (fun t => (rangeSum c6completionEvents (t - 14 * MS_PER_DAY) t, t)) :=
  c6_velocity_is_trailing_window_sum.1 c6window c6completionEvents (by decide)

/-! ## Helper lemmas: the cycle-time average -/

theorem avgCycleStep_foldl (fromStatuses toStatuses : List String) (toDateTime : ℤ) :
    ∀ (m : List (String × IssueStatusChanges)) (t0 : ℚ) (i0 : ℕ),
      (∀ e ∈ m, (calculateCycleTime e.2.statusChanges fromStatuses toStatuses
        toDateTime).isSome) →
      m.foldl (avgCycleStep fromStatuses toStatuses toDateTime) (some (t0, i0)) =
        some (t0 + ((m.filter (fun e => getIssueSize e.2.issue != 0)).map
            (fun e => (calculateCycleTime e.2.statusChanges fromStatuses toStatuses
                toDateTime).getD 0 / (getIssueSize e.2.issue : ℚ))).sum,
          i0 + (m.filter (fun e => getIssueSize e.2.issue == 0)).length) := by
  intro m
  induction m with
  | nil => intro t0 i0 _; simp
  | cons e rest ih =>
    intro t0 i0 hsome
    have he := hsome e (by simp)
    rcases hct : calculateCycleTime e.2.statusChanges fromStatuses toStatuses toDateTime
      with _ | ct
    · rw [hct] at he; simp at he
    by_cases hz : getIssueSize e.2.issue = 0
    · have hstep : avgCycleStep fromStatuses toStatuses toDateTime (some (t0, i0)) e =
          some (t0, i0 + 1) := by
        simp [avgCycleStep, hct, hz]
      rw [List.foldl_cons, hstep, ih t0 (i0 + 1) (fun x hx => hsome x (by simp [hx]))]
      have h1 : (getIssueSize e.2.issue != 0) = false := by simp [hz]
      have h2 : (getIssueSize e.2.issue == 0) = true := by simp [hz]
      rw [List.filter_cons_of_neg (by simp [h1]), List.filter_cons_of_pos (by simp [h2])]
      simp only [List.length_cons]
      refine congrArg _ (Prod.ext rfl ?_)
      omega
    · have hstep : avgCycleStep fromStatuses toStatuses toDateTime (some (t0, i0)) e =
          some (t0 + ct / (getIssueSize e.2.issue : ℚ), i0) := by
        simp [avgCycleStep, hct, hz]
      rw [List.foldl_cons, hstep,
        ih (t0 + ct / (getIssueSize e.2.issue : ℚ)) i0
          (fun x hx => hsome x (by simp [hx]))]
      have h1 : (getIssueSize e.2.issue != 0) = true := by simp [hz]
      have h2 : (getIssueSize e.2.issue == 0) = false := by simp [hz]
      rw [List.filter_cons_of_pos (by simp [h1]), List.filter_cons_of_neg (by simp [h2])]
      simp only [List.map_cons, List.sum_cons, hct, Option.getD_some]
      refine congrArg _ (Prod.ext ?_ rfl)
      simp only
      ring

theorem length_filter_size_split (m : List (String × IssueStatusChanges)) :
    m.length = (m.filter (fun e => getIssueSize e.2.issue != 0)).length
      + (m.filter (fun e => getIssueSize e.2.issue == 0)).length := by
  induction m with
  | nil => simp
  | cons e rest ihr =>
    by_cases hz : getIssueSize e.2.issue = 0
    · rw [List.filter_cons_of_neg (by simp [hz]), List.filter_cons_of_pos (by simp [hz])]
      simp only [List.length_cons, ihr]
      omega
    · rw [List.filter_cons_of_pos (by simp [hz]), List.filter_cons_of_neg (by simp [hz])]
      simp only [List.length_cons, ihr]
      omega

/-- Claim C5 (confirmed): the per-sample average cycle time per point is
the sum of `cycleTime/size` over the issues of positive size divided by
the number of issues of positive size; size-0 issues are excluded from
numerator and denominator (one size-0 issue of cycle time 5 days plus
one size-2 issue of cycle time 4 days average to exactly 2.0), and when
every issue has size 0 the result is `NaN` (`0/0`), never 0. -/
theorem c5_average_cycle_time_excludes_size_zero :
    (∀ (m : List (String × IssueStatusChanges)) (fromStatuses toStatuses : List String)
        (toDateTime : ℤ),
      (∀ e ∈ m, 0 ≤ getIssueSize e.2.issue) →
      (∀ e ∈ m, (calculateCycleTime e.2.statusChanges fromStatuses toStatuses
        toDateTime).isSome) →
      calculateAverageCycleTimePerPointForIssues m fromStatuses toStatuses toDateTime =
        some (jsDiv
          (((m.filter (fun e => decide (0 < getIssueSize e.2.issue))).map
              (fun e => (calculateCycleTime e.2.statusChanges fromStatuses toStatuses
                  toDateTime).getD 0 / (getIssueSize e.2.issue : ℚ))).sum)
          (((m.filter (fun e => decide (0 < getIssueSize e.2.issue))).length : ℚ)))) ∧
    calculateAverageCycleTimePerPointForIssues c5statusChangeMap
      ["To Do"] ["Done"] (day 20) = some (.num 2) ∧
    calculateAverageCycleTimePerPointForIssues c5allZeroMap
      ["To Do"] ["Done"] (day 20) = some .nan ∧
    JSNum.nan ≠ JSNum.num 0 := by
  refine ⟨?_, ?_, ?_, by decide⟩
  · intro m fromStatuses toStatuses toDateTime h0 hsome
    have hfilters : m.filter (fun e => getIssueSize e.2.issue != 0) =
        m.filter (fun e => decide (0 < getIssueSize e.2.issue)) := by
      apply List.filter_congr
      intro e he
      have := h0 e he
      rw [Bool.eq_iff_iff]
      simp only [bne_iff_ne, ne_eq, decide_eq_true_eq]
      omega
    have hlen : m.length = (m.filter (fun e => decide (0 < getIssueSize e.2.issue))).length
        + (m.filter (fun e => getIssueSize e.2.issue == 0)).length := by
      rw [← hfilters]
      exact length_filter_size_split m
    have hden : ((m.length : ℚ) -
        ((m.filter (fun e => getIssueSize e.2.issue == 0)).length : ℚ)) =
        ((m.filter (fun e => decide (0 < getIssueSize e.2.issue))).length : ℚ) := by
      rw [hlen]
      push_cast
      ring
    rw [calculateAverageCycleTimePerPointForIssues,
      avgCycleStep_foldl fromStatuses toStatuses toDateTime m 0 0 hsome, hfilters]
    simp only [Option.map_some', zero_add, Nat.zero_add, hden]
  · have hA : calculateCycleTime
        [{ issue := mkLeafIssue "A" 0, fromStatus := some "To Do"
           toStatus := some "Doing", datetime := day 0 },
         { issue := mkLeafIssue "A" 0, fromStatus := some "Doing"
           toStatus := some "Done", datetime := day 5 }]
        ["To Do"] ["Done"] (day 20) = some 5 := by
      simp [calculateCycleTime, statusIncludes, day, MS_PER_DAY, List.find?]
      norm_num
    have hB : calculateCycleTime
        [{ issue := mkLeafIssue "B" 2, fromStatus := some "To Do"
           toStatus := some "Doing", datetime := day 0 },
         { issue := mkLeafIssue "B" 2, fromStatus := some "Doing"
           toStatus := some "Done", datetime := day 4 }]
        ["To Do"] ["Done"] (day 20) = some 4 := by
      simp [calculateCycleTime, statusIncludes, day, MS_PER_DAY, List.find?]
      norm_num
    simp only [calculateAverageCycleTimePerPointForIssues, c5statusChangeMap, List.foldl,
      avgCycleStep, hA, hB]
    simp only [getIssueSize, mkLeafIssue, List.length, Option.map]
    norm_num [jsDiv]
  · have hA : calculateCycleTime
        [{ issue := mkLeafIssue "A" 0, fromStatus := some "To Do"
           toStatus := some "Doing", datetime := day 0 },
         { issue := mkLeafIssue "A" 0, fromStatus := some "Doing"
           toStatus := some "Done", datetime := day 5 }]
        ["To Do"] ["Done"] (day 20) = some 5 := by
      simp [calculateCycleTime, statusIncludes, day, MS_PER_DAY, List.find?]
      norm_num
    simp only [calculateAverageCycleTimePerPointForIssues, c5allZeroMap, List.foldl,
      avgCycleStep, hA]
    simp only [getIssueSize, mkLeafIssue, List.length, Option.map]
    norm_num [jsDiv]

/-- Claim C5 witness: the general average formula applied to the
two-issue example map. -/
theorem c5_average_cycle_time_witness :
    calculateAverageCycleTimePerPointForIssues c5statusChangeMap
      ["To Do"] ["Done"] (day 20) =
      some (jsDiv
        (((c5statusChangeMap.filter
            (fun e => decide (0 < getIssueSize e.2.issue))).map
            (fun e => (calculateCycleTime e.2.statusChanges ["To Do"] ["Done"]
                (day 20)).getD 0 / (getIssueSize e.2.issue : ℚ))).sum)
        (((c5statusChangeMap.filter
            (fun e => decide (0 < getIssueSize e.2.issue))).length : ℚ))) :=
  c5_average_cycle_time_excludes_size_zero.1 c5statusChangeMap ["To Do"] ["Done"]
    (day 20) (by decide) (by decide)

/-- Claim C7 (confirmed): with `window.to` in the future, the three
projected burnup lines end at
`doneNow + ((window.to - window.now) in fortnights) × v` for
`v ∈ {max, cur, min}`; with bounds `{max: 10, cur: 6, min: 2}`,
`doneNow = 20`, and `window.to` one fortnight after now, the projected
values are 30, 26 and 22. -/
theorem c7_projection_formula :
    (∀ (window : Window) (vBounds : VBounds) (scopeData burnupData : List (ℚ × ℤ))
        (targetReleaseDate : ℤ) (result : List Series) (doneNow : ℚ) (dt : ℤ)
        (scopeNow : ℚ) (st : ℤ),
      window.now < window.toMs →
      burnupData.getLast? = some (doneNow, dt) →
      scopeData.getLast? = some (scopeNow, st) →
      ∃ rest, getBurnupProjectionFromCache window vBounds scopeData burnupData
          targetReleaseDate result =
        some (result ++
          [{ target := "Max V projection"
             datapoints := [(doneNow, window.now),
               (doneNow + ((window.toMs - window.now : ℤ) : ℚ) / (MS_PER_FORTNIGHT : ℚ)
                 * vBounds.max, window.toMs)] },
           { target := "Cur V projection"
             datapoints := [(doneNow, window.now),
               (doneNow + ((window.toMs - window.now : ℤ) : ℚ) / (MS_PER_FORTNIGHT : ℚ)
                 * vBounds.cur, window.toMs)] },
           { target := "Min V projection"
             datapoints := [(doneNow, window.now),
               (doneNow + ((window.toMs - window.now : ℤ) : ℚ) / (MS_PER_FORTNIGHT : ℚ)
                 * vBounds.min, window.toMs)] }] ++ rest)) ∧
    getBurnupProjectionFromCache c7window c7bounds c7scopeData c7burnupData (day 20) [] =
      some
        [{ target := "Max V projection", datapoints := [(20, 0), (30, day 14)] },
         { target := "Cur V projection", datapoints := [(20, 0), (26, day 14)] },
         { target := "Min V projection", datapoints := [(20, 0), (22, day 14)] },
         { target := "Scope projection", datapoints := [(25, 0), (25, day 14)] },
         { target := "Now", datapoints := [(0, 0), (30, 0)] },
         { target := "Target", datapoints := [(0, day 20), (30, day 20)] }] := by
  constructor
  · intro window vBounds scopeData burnupData targetReleaseDate result doneNow dt
      scopeNow st _hfuture hb hs
    refine ⟨[{ target := "Scope projection"
               datapoints := [(scopeNow, window.now), (scopeNow, window.toMs)] },
             { target := "Now"
               datapoints := [(0, window.now),
                 (seriesMax (burnupData.map (·.1))
                   (Max.max (seriesMax (scopeData.map (·.1)) scopeNow)
                     (doneNow + ((window.toMs - window.now : ℤ) : ℚ) /
                       (MS_PER_FORTNIGHT : ℚ) * vBounds.max)), window.now)] },
             { target := "Target"
               datapoints := [(0, targetReleaseDate),
                 (seriesMax (burnupData.map (·.1))
                   (Max.max (seriesMax (scopeData.map (·.1)) scopeNow)
                     (doneNow + ((window.toMs - window.now : ℤ) : ℚ) /
                       (MS_PER_FORTNIGHT : ℚ) * vBounds.max)), targetReleaseDate)] }], ?_⟩
    simp only [getBurnupProjectionFromCache, hb, hs, addVerticalLine]
    simp [List.append_assoc]
  · norm_num [getBurnupProjectionFromCache, c7window, c7bounds, c7scopeData, c7burnupData,
      addVerticalLine, seriesMax, day, MS_PER_DAY, MS_PER_FORTNIGHT]

/-- Claim C7 witness: the projection formula applied to the example
window, bounds and series. -/
theorem c7_projection_formula_witness :
    ∃ rest, getBurnupProjectionFromCache c7window c7bounds c7scopeData c7burnupData
        (day 20) [] =
      some ([] ++
        [{ target := "Max V projection"
           datapoints := [((20 : ℚ), c7window.now),
             (20 + ((c7window.toMs - c7window.now : ℤ) : ℚ) / (MS_PER_FORTNIGHT : ℚ)
               * c7bounds.max, c7window.toMs)] },
         { target := "Cur V projection"
           datapoints := [((20 : ℚ), c7window.now),
             (20 + ((c7window.toMs - c7window.now : ℤ) : ℚ) / (MS_PER_FORTNIGHT : ℚ)
               * c7bounds.cur, c7window.toMs)] },
         { target := "Min V projection"
           datapoints := [((20 : ℚ), c7window.now),
             (20 + ((c7window.toMs - c7window.now : ℤ) : ℚ) / (MS_PER_FORTNIGHT : ℚ)
               * c7bounds.min, c7window.toMs)] }] ++ rest) :=
  c7_projection_formula.1 c7window c7bounds c7scopeData c7burnupData (day 20) []
    20 (day (-1)) 25 (day (-1)) (by decide) (by decide) (by decide)

/-! ## Helper lemmas: degenerate velocity series -/

theorem velocitySweepAux_no_events (samples : List ℤ) :
    velocitySweepAux [] [] samples = samples.map (fun t => (0, t)) := by
  induction samples with
  | nil => simp [velocitySweepAux]
  | cons t rest ih => simp [velocitySweepAux, advanceTo, backSum, ih]

theorem foldl_min_zero (xs : List (ℤ × ℤ)) (h : ∀ v ∈ xs, v.1 = 0) :
    xs.foldl (fun m v => Min.min ((v.1 : ℚ)) m) 0 = 0 := by
  induction xs with
  | nil => rfl
  | cons v rest ih =>
    have hv := h v (by simp)
    simp only [List.foldl_cons, hv]
    rw [show (((0 : ℤ) : ℚ)) = 0 by norm_num, min_self]
    exact ih (fun x hx => h x (by simp [hx]))

theorem foldl_max_zero (xs : List (ℤ × ℤ)) (h : ∀ v ∈ xs, v.1 = 0) :
    xs.foldl (fun m v => Max.max ((v.1 : ℚ)) m) 0 = 0 := by
  induction xs with
  | nil => rfl
  | cons v rest ih =>
    have hv := h v (by simp)
    simp only [List.foldl_cons, hv]
    rw [show (((0 : ℤ) : ℚ)) = 0 by norm_num, max_self]
    exact ih (fun x hx => h x (by simp [hx]))

theorem getLastD_mem_cons' {α : Type} (l : List α) (a : α) :
    l.getLastD a ∈ a :: l := by
  induction l generalizing a with
  | nil => simp [List.getLastD]
  | cons x xs ih =>
    rw [List.getLastD_cons]
    exact List.mem_cons_of_mem a (ih x)

/-- Claim C8 (counterexample): with no completion transitions ever
observed, the velocity series is *not* empty — it is a nonempty
all-zero series — and the Limits bounds come out as the plain zeros
`{max: 0, cur: 0, min: 0}` (not `none`, not a `NaN` marker); feeding
them to the projection yields ordinary numeric output in which every
projected burnup line ends at `doneNow` exactly, i.e. a silently
reported zero velocity rather than a flagged missing value. -/
theorem c8_no_completions_yields_silent_zero_bounds :
    getCompletionEvents (getStatusChangesByIssueKeyMap c8corpus) ["Done"] = [] ∧
    getVelocityBoundsFromHistoricData 0
        (velocityCacheFromIssues c8window c8corpus ["Done"] none) =
      some { max := 0, cur := 0, min := 0 } ∧
    getBurnupProjectionFromCache c7window { max := 0, cur := 0, min := 0 }
        c7scopeData c7burnupData (day 20) [] =
      some
        [{ target := "Max V projection", datapoints := [(20, 0), (20, day 14)] },
         { target := "Cur V projection", datapoints := [(20, 0), (20, day 14)] },
         { target := "Min V projection", datapoints := [(20, 0), (20, day 14)] },
         { target := "Scope projection", datapoints := [(25, 0), (25, day 14)] },
         { target := "Now", datapoints := [(0, 0), (25, 0)] },
         { target := "Target", datapoints := [(0, day 20), (25, day 20)] }] := by
  refine ⟨by decide, ?_, ?_⟩
  · have hcache : velocityCacheFromIssues c8window c8corpus ["Done"] none =
        (List.range 14).map (fun n => ((0 : ℤ), day n)) := by decide
    rw [hcache]
    norm_num [getVelocityBoundsFromHistoricData, List.range, List.range.loop, day,
      MS_PER_DAY, List.filter, List.foldl, List.getLastD]
  · norm_num [getBurnupProjectionFromCache, c7window, c7scopeData, c7burnupData,
      addVerticalLine, seriesMax, day, MS_PER_DAY, MS_PER_FORTNIGHT]

/-- Claim C8 (amended): when no completion transitions were ever
observed, the sampled velocity series is a (possibly empty) all-zero
series; when the series restricted to the display window is nonempty
(and all-zero), the Limits bounds are the silent zeros
`{max: 0, cur: 0, min: 0}`; only when the restricted series is
literally empty does the bounds computation fail with a thrown
`TypeError` (`none`) and produce no output at all — in no case is a
flagged missing/NaN value emitted in the output. -/
theorem c8_degenerate_velocity_behaviour :
    (∀ window : Window, velocityTimeseries window [] =
      (mkSamples window.fromMs
          (if window.toMs > window.now then window.now else window.toMs)
          window.intervalMs).map (fun t => (0, t))) ∧
    (∀ (windowFrom : ℤ) (cache : List (ℤ × ℤ)),
      cache.filter (fun value => value.2 ≥ windowFrom) = [] →
      getVelocityBoundsFromHistoricData windowFrom cache = none) ∧
    (∀ (windowFrom : ℤ) (cache : List (ℤ × ℤ)),
      (∀ v ∈ cache, v.1 = 0) →
      cache.filter (fun value => value.2 ≥ windowFrom) ≠ [] →
      getVelocityBoundsFromHistoricData windowFrom cache =
        some { max := 0, cur := 0, min := 0 }) := by
  refine ⟨?_, ?_, ?_⟩
  · intro window
    exact velocitySweepAux_no_events _
  · intro windowFrom cache hempty
    rw [getVelocityBoundsFromHistoricData, hempty]
  · intro windowFrom cache hzero hne
    rw [getVelocityBoundsFromHistoricData]
    rcases hf : cache.filter (fun value => value.2 ≥ windowFrom) with _ | ⟨v0, rest⟩
    · exact absurd hf hne
    · have hmem : ∀ v ∈ v0 :: rest, v.1 = 0 := by
        intro v hv
        exact hzero v (List.mem_of_mem_filter (hf ▸ hv))
      have hv0 : v0.1 = 0 := hmem v0 (by simp)
      have hcast : ((v0.1 : ℚ)) = 0 := by rw [hv0]; norm_num
      have hlast : (rest.getLastD v0).1 = 0 :=
        hmem (rest.getLastD v0) (getLastD_mem_cons' rest v0)
      simp only [hf, hcast, foldl_min_zero (v0 :: rest) hmem,
        foldl_max_zero (v0 :: rest) hmem]
      have : ((rest.getLastD v0).1 : ℚ) = 0 := by rw [hlast]; norm_num
      rw [this]

/-- Claim C8 witness: the amended behaviour at concrete series — an
out-of-window point gives `none` (the crash), an in-window zero point
gives the silent zero bounds. -/
theorem c8_degenerate_velocity_behaviour_witness :
    getVelocityBoundsFromHistoricData 0 [((0 : ℤ), (-5 : ℤ))] = none ∧
    getVelocityBoundsFromHistoricData 0 [((0 : ℤ), (0 : ℤ))] =
      some { max := 0, cur := 0, min := 0 } :=
  ⟨c8_degenerate_velocity_behaviour.2.1 0 [((0 : ℤ), (-5 : ℤ))] (by decide),
   c8_degenerate_velocity_behaviour.2.2 0 [((0 : ℤ), (0 : ℤ))]
     (by decide) (by decide)⟩

/-! ## Helper lemmas: termination of the snapshot recursions -/

theorem alistGet_mem {β : Type} :
    ∀ (m : List (String × β)) (k : String) (v : β),
      alistGet m k = some v → (k, v) ∈ m := by
  intro m
  induction m with
  | nil => intro k v h; simp [alistGet] at h
  | cons p rest ih =>
    intro k v h
    by_cases hpk : (p.1 == k) = true
    · simp only [alistGet, List.find?, hpk, Option.map_some', Option.some.injEq] at h
      have hk : p.1 = k := by simpa using hpk
      have : (k, v) = p := by
        cases p
        simp_all
      rw [this]
      exact List.mem_cons_self p rest
    · have hpk' : (p.1 == k) = false := by simpa using hpk
      simp only [alistGet, List.find?, hpk'] at h
      exact List.mem_cons_of_mem _ (ih k v h)

theorem isChildOfFuel_terminates (issues : List (String × Snapshot))
    (keyToIdMap : List (String × String)) (rank : String → ℕ) (target : String)
    (hacy : ParentAcyclic issues keyToIdMap rank) :
    ∀ (fuel : ℕ) (k : String) (issue : Snapshot),
      alistGet issues k = some issue → rank k < fuel →
      (isChildOfFuel fuel issues keyToIdMap issue target).isSome := by
  intro fuel
  induction fuel with
  | zero => intro k issue _ hrank; omega
  | succ n ih =>
    intro k issue hget hrank
    simp only [isChildOfFuel]
    by_cases hhit : (effectiveParentId keyToIdMap issue == some target) = true
    · simp [hhit]
    · simp only [Bool.not_eq_true] at hhit
      rw [hhit]
      simp only [Bool.false_eq_true, if_false]
      cases hpid : effectiveParentId keyToIdMap issue with
      | none => simp [hpid]
      | some pid =>
        simp only [hpid]
        cases hlook : alistGet issues pid with
        | none => simp [hlook]
        | some directParentIssue =>
          simp only [hlook]
          have hlt : rank pid < rank k :=
            hacy (k, issue) (alistGet_mem issues k issue hget) pid hpid
              directParentIssue hlook
          exact ih pid directParentIssue hlook (by omega)

theorem calculateTotalSizeFuel_terminates (issues : List (String × Snapshot))
    (rank : String → ℕ) (hacy : ChildrenAcyclic issues rank)
    (hclosed : ChildrenClosed issues) :
    ∀ (fuel : ℕ) (b : Bool) (k : String) (issue : Snapshot),
      alistGet issues k = some issue → rank k < fuel →
      (calculateTotalSizeFuel fuel issues issue b).isSome := by
  intro fuel
  induction fuel with
  | zero => intro b k issue _ hrank; omega
  | succ n ih =>
    intro b k issue hget hrank
    have hksub : (k, issue) ∈ issues := alistGet_mem issues k issue hget
    simp only [calculateTotalSizeFuel]
    have hfold : ∀ (cs : List String), (∀ c ∈ cs, c ∈ issue.children) →
        ∀ (acc : Option ℤ), acc.isSome →
        (cs.foldl (fun acc childId =>
          match acc with
          | none => none
          | some s =>
            match alistGet issues childId with
            | some child => (calculateTotalSizeFuel n issues child b).map (s + ·)
            | none => none) acc).isSome := by
      intro cs
      induction cs with
      | nil => intro _ acc hacc; simpa using hacc
      | cons c cs' ihc =>
        intro hsub acc hacc
        rcases Option.isSome_iff_exists.mp hacc with ⟨s, rfl⟩
        have hc : c ∈ issue.children := hsub c (by simp)
        have hlook := hclosed (k, issue) hksub c hc
        rcases Option.isSome_iff_exists.mp hlook with ⟨child, hchild⟩
        have hrec : (calculateTotalSizeFuel n issues child b).isSome := by
          apply ih b c child hchild
          have hcc : rank c < rank k := by simpa using hacy (k, issue) hksub c hc
          omega
        rcases Option.isSome_iff_exists.mp hrec with ⟨sz, hsz⟩
        refine ihc (fun x hx => hsub x (by simp [hx])) _ ?_
        simp only [List.foldl_cons, hchild, hsz]
        simp [hsz]
      -- the fold keeps a `some` accumulator throughout
    have := hfold issue.children (fun c hc => hc) (some 0) (by simp)
    rcases Option.isSome_iff_exists.mp this with ⟨s, hs⟩
    simp [hs]

theorem isChildOfFuel_cycle_diverges :
    ∀ fuel : ℕ,
      isChildOfFuel fuel cyclicIssues [] snapCycleA "C" = none ∧
      isChildOfFuel fuel cyclicIssues [] snapCycleB "C" = none := by
  intro fuel
  induction fuel with
  | zero => exact ⟨rfl, rfl⟩
  | succ n ih =>
    constructor
    · simp only [isChildOfFuel]
      simp [effectiveParentId, snapCycleA, snapCycleB, cyclicIssues, alistGet,
        List.find?]
      simpa [cyclicIssues, snapCycleB] using ih.2
    · simp only [isChildOfFuel]
      simp [effectiveParentId, snapCycleA, snapCycleB, cyclicIssues, alistGet,
        List.find?]
      simpa [cyclicIssues, snapCycleA] using ih.1

/-- Claim C10 (confirmed): `isChildOf` and `calculateTotalSize` recurse
with no cycle detection.  Both terminate on every arena whose
parent/children relations are acyclic (witnessed by a rank function
that decreases along each edge, which exists exactly for the acyclic
finite relations): some fuel — any amount above the start entry's rank
— returns a value.  But on the cyclic arena in which snapshots `A` and
`B` name each other as parent, `isChildOf` starting from `A` exhausts
*every* fuel amount, i.e. the source recursion never terminates. -/
theorem c10_recursions_terminate_iff_acyclic :
    (∀ (issues : List (String × Snapshot)) (keyToIdMap : List (String × String))
        (rank : String → ℕ) (target : String),
      ParentAcyclic issues keyToIdMap rank →
      ∀ (fuel : ℕ) (k : String) (issue : Snapshot),
        alistGet issues k = some issue → rank k < fuel →
        (isChildOfFuel fuel issues keyToIdMap issue target).isSome) ∧
    (∀ (issues : List (String × Snapshot)) (rank : String → ℕ),
      ChildrenAcyclic issues rank → ChildrenClosed issues →
      ∀ (fuel : ℕ) (b : Bool) (k : String) (issue : Snapshot),
        alistGet issues k = some issue → rank k < fuel →
        (calculateTotalSizeFuel fuel issues issue b).isSome) ∧
    (∀ fuel : ℕ, isChildOfFuel fuel cyclicIssues [] snapCycleA "C" = none) :=
  ⟨fun issues keyToIdMap rank target hacy =>
      isChildOfFuel_terminates issues keyToIdMap rank target hacy,
   fun issues rank hacy hclosed =>
      calculateTotalSizeFuel_terminates issues rank hacy hclosed,
   fun fuel => (isChildOfFuel_cycle_diverges fuel).1⟩

/-- Claim C10 witness: the termination halves applied to the one-entry
acyclic arena holding the parent-less, child-less initiative
snapshot. -/
theorem c10_recursions_terminate_witness :
    (isChildOfFuel 1 [("1", snapInitiative)] [] snapInitiative "X").isSome = true ∧
    (calculateTotalSizeFuel 1 [("1", snapInitiative)] snapInitiative false).isSome
      = true := by
  constructor
  · apply c10_recursions_terminate_iff_acyclic.1 [("1", snapInitiative)] []
      (fun _ => 0) "X" ?_ 1 "1" snapInitiative (by decide) (by decide)
    intro p hp pid hpid s' _
    rw [List.mem_singleton] at hp
    subst hp
    simp [effectiveParentId, snapInitiative] at hpid
  · apply c10_recursions_terminate_iff_acyclic.2.1 [("1", snapInitiative)]
      (fun _ => 0) ?_ ?_ 1 false "1" snapInitiative (by decide) (by decide)
    · intro p hp c hc
      rw [List.mem_singleton] at hp
      subst hp
      simp [snapInitiative] at hc
    · intro p hp c hc
      rw [List.mem_singleton] at hp
      subst hp
      simp [snapInitiative] at hc

end JiraMetrics
